import Mathlib

/-!
# DRM/KMS display layer: flip submission and completion

A shallow embedding of `systems/drmkms/drmkms_layer.c`.

* The per-layer record `DRMKMSLayerData` is a Lean structure.  The mutex `lock`
  and the wait queue `wq_event` are not fields: every function below runs with
  the lock held from start to end, so a call is one atomic step, and the only
  place where the lock is released inside a call is the timed wait, whose
  behaviour is supplied by the environment as a `WaitOutcome`.
* Pointers are natural numbers, `0` being `NULL`.
* Calls into the surface core, the wait queue and libdrm are recorded, in
  program order, as a list of `Effect`s; the values returned by libdrm are
  supplied by the environment (`SubmitEnv`) and recorded with the call.
* `errno2result` lives outside this file of the driver and is a parameter.
-/

namespace DRMKMS

/-- Time out for flip assuming that almost everything can manage 5 fps (in microseconds). -/
def fliptimeout : Int := 1000000 / 5

/-- Modelled from the spec: the error taxonomy of the display core, declared
outside `drmkms_layer.c`.  The layer itself returns `DFB_OK`, `DFB_INVARG`
(invalid argument), `DFB_UNSUPPORTED` and `DFB_FAILURE`; the other codes are
results `errno2result` may give for a rejected hardware call. -/
inductive DFBResult where
  | DFB_OK
  | DFB_FAILURE
  | DFB_UNSUPPORTED
  | DFB_INVARG
  | DFB_ACCESSDENIED
  | DFB_BUSY
  | DFB_TIMEOUT
  | DFB_NOSYSTEMMEMORY
  deriving DecidableEq

/-- Modelled from the spec: the flip flags by which a caller asks a submit to
wait for its completion are declared outside `drmkms_layer.c`; the values are
those of the public header.  Flip flag `DSFLIP_WAIT`. -/
def DSFLIP_WAIT : Nat := 0x00000001
/-- Modelled from the spec: flip flag `DSFLIP_ONSYNC`, value of the public header. -/
def DSFLIP_ONSYNC : Nat := 0x00000004
/-- Modelled from the spec: flip flag `DSFLIP_WAITFORSYNC`, the request to wait
for the completion of the submission: the union of `DSFLIP_WAIT` and
`DSFLIP_ONSYNC`. -/
def DSFLIP_WAITFORSYNC : Nat := DSFLIP_WAIT ||| DSFLIP_ONSYNC

/-- Flag of `drmModePageFlip` (libdrm): request a page-flip completion event. -/
def DRM_MODE_PAGE_FLIP_EVENT : Nat := 0x01
/-- Flag of `drmModePageFlip` (libdrm): flip immediately, no event. -/
def DRM_MODE_PAGE_FLIP_ASYNC : Nat := 0x02
/-- Object type tag of a plane for `drmModeObjectSetProperty` (libdrm). -/
def DRM_MODE_OBJECT_PLANE : Nat := 0xeeeeeeee
/-- Request type of `drmWaitVBlank` (libdrm): relative sequence. -/
def DRM_VBLANK_RELATIVE : Nat := 0x1
/-- Request type of `drmWaitVBlank` (libdrm): deliver an event. -/
def DRM_VBLANK_EVENT : Nat := 0x4000000

/-- Rectangle `DFBRectangle`. -/
structure DFBRectangle where
  x : Int
  y : Int
  w : Int
  h : Int
  deriving DecidableEq

/-- Colour key `DFBColorKey` (the components the layer reads). -/
structure DFBColorKey where
  r : Nat
  g : Nat
  b : Nat
  deriving DecidableEq

/-- The fields of `CoreLayerRegionConfig` that the plane layer reads. -/
structure CoreLayerRegionConfig where
  dest : DFBRectangle
  source : DFBRectangle
  opacity : Nat
  options : Nat
  src_key : DFBColorKey
  deriving DecidableEq

/-- The fields of `CoreSurfaceBufferLock` that the layer reads:
`handle` (the framebuffer id) and `buffer->index`. -/
structure CoreSurfaceBufferLock where
  handle : Nat
  buffer_index : Int
  deriving DecidableEq

/-- Per-layer data `DRMKMSLayerData`.  `plane_id` stands for `plane->plane_id`,
`config` for the region configuration `config` points to, and `surface` is the
`CoreSurface` pointer (`0` is `NULL`). -/
structure DRMKMSLayerData where
  primary_index : Int
  plane_index : Int
  plane_id : Nat
  colorkey_propid : Nat
  zpos_propid : Nat
  alpha_propid : Nat
  level : Int
  config : CoreLayerRegionConfig
  muted : Bool
  surface : Nat
  surfacebuffer_index : Int
  flip_pending : Bool
  deriving DecidableEq

/-- The fields of `DRMKMSDataShared` that the layer functions read. -/
structure DRMKMSDataShared where
  mirror_outputs : Bool
  primary_index_count : Int
  plane_index_count : Int
  deriving DecidableEq

/-- The fields of `DRMKMSData` that the layer functions read; `encoder_crtc_id i`
stands for `encoder[i]->crtc_id`. -/
structure DRMKMSData where
  fd : Int
  enabled_crtcs : Int
  encoder_crtc_id : Int → Nat
  shared : DRMKMSDataShared

/-- Calls that leave the layer, in program order.  A libdrm call carries the
value it returned (`err`); `user_data` / `signal` tell whether the layer data
pointer was passed (`true`) or `NULL` (`false`). -/
inductive Effect where
  | dfb_surface_ref (surface : Nat)
  | dfb_surface_unref (surface : Nat)
  | dfb_surface_notify_display2 (surface : Nat) (index : Int)
  | dfb_surface_flip (surface : Nat) (swap : Bool)
  | direct_waitqueue_broadcast
  | direct_waitqueue_wait_timeout (micros : Int)
  | drmModePageFlip (crtc_id : Nat) (fb_id : Nat) (flags : Nat) (user_data : Bool) (err : Int)
  | drmModeSetPlane (plane_id : Nat) (crtc_id : Nat) (fb_id : Nat) (flags : Nat)
      (dest : DFBRectangle) (src : DFBRectangle) (err : Int)
  | drmWaitVBlank (request_type : Nat) (sequence : Nat) (signal : Bool) (err : Int)
  | drmModeObjectSetProperty (object_id : Nat) (object_type : Nat) (property_id : Nat)
      (value : Int) (err : Int)
  deriving DecidableEq

/-- State, effects and return value of one call. -/
structure Outcome where
  data : DRMKMSLayerData
  effects : List Effect
  ret : DFBResult
  deriving DecidableEq

/-- The event handler `drmkms_page_flip_handler` (installed both as page-flip
and as vblank handler), run on the layer data the event carries. -/
def drmkms_page_flip_handler (data : DRMKMSLayerData) : DRMKMSLayerData × List Effect :=
  let e1 :=
    if data.flip_pending then
      [Effect.dfb_surface_notify_display2 data.surface data.surfacebuffer_index,
       Effect.dfb_surface_unref data.surface]
    else []
  ({ data with flip_pending := false }, e1 ++ [Effect.direct_waitqueue_broadcast])

/-- What the environment does during one `direct_waitqueue_wait_timeout`:
`event` tells whether the event thread ran `drmkms_page_flip_handler` on this
layer while the lock was released, `timed_out` whether the wait returned
`DR_TIMEOUT`. -/
structure WaitOutcome where
  event : Bool
  timed_out : Bool
  deriving DecidableEq

/-- One timed wait on `wq_event` for `fliptimeout` microseconds: the lock is
released, the handler runs if the environment delivers an event, the lock is
taken again. -/
def direct_waitqueue_wait_timeout (w : WaitOutcome) (data : DRMKMSLayerData) :
    DRMKMSLayerData × List Effect :=
  if w.event then
    ((drmkms_page_flip_handler data).1,
     Effect.direct_waitqueue_wait_timeout fliptimeout :: (drmkms_page_flip_handler data).2)
  else (data, [Effect.direct_waitqueue_wait_timeout fliptimeout])

/-- The loop `while (data->flip_pending) { if (wait(...) == DR_TIMEOUT) break; }`.
The outcomes of the successive waits come from the list; `none` means the list
is used up while the thread is still waiting. -/
def waitPendingFlip : List WaitOutcome → DRMKMSLayerData → Option (DRMKMSLayerData × List Effect)
  | [], data => if data.flip_pending then none else some (data, [])
  | w :: ws, data =>
    if data.flip_pending then
      if w.timed_out then some (direct_waitqueue_wait_timeout w data)
      else
        match waitPendingFlip ws (direct_waitqueue_wait_timeout w data).1 with
        | none => none
        | some (d, e) => some (d, (direct_waitqueue_wait_timeout w data).2 ++ e)
    else some (data, [])

/-- The environment of one submit: the outcomes of the waits for the previous
flip, the return value and `errno` of the tracked libdrm call
(`drmModePageFlip` with `DRM_MODE_PAGE_FLIP_EVENT`, or `drmModeSetPlane`), the
return value of the mirror page flip on each CRTC index, the return value of
`drmWaitVBlank`, and the outcomes of the `DSFLIP_WAITFORSYNC` waits. -/
structure SubmitEnv where
  prev_waits : List WaitOutcome
  err : Int
  errno : Int
  mirror_err : Nat → Int
  vblank_err : Int
  sync_waits : List WaitOutcome

/-- The mirror loop `for (i = 1; i < drmkms->enabled_crtcs; i++)` of
`drmkmsPrimaryUpdateFlipRegion`. -/
def mirrorFlips (drmkms : DRMKMSData) (left_lock : CoreSurfaceBufferLock)
    (mirror_err : Nat → Int) : List Effect :=
  (List.range' 1 (drmkms.enabled_crtcs.toNat - 1)).map (fun (i : Nat) =>
    Effect.drmModePageFlip (drmkms.encoder_crtc_id (Int.ofNat i)) left_lock.handle
      DRM_MODE_PAGE_FLIP_ASYNC false (mirror_err i))

/-- The function `drmkmsPrimaryUpdateFlipRegion`. -/
def drmkmsPrimaryUpdateFlipRegion (errno2result : Int → DFBResult) (drmkms : DRMKMSData)
    (data : DRMKMSLayerData) (surface : Nat) (flags : Nat) (left_lock : CoreSurfaceBufferLock)
    (flip : Bool) (env : SubmitEnv) : Option Outcome :=
  match waitPendingFlip env.prev_waits data with
  | none => none
  | some (d1, e1) =>
    let d2 := { d1 with surface := surface, surfacebuffer_index := left_lock.buffer_index,
                        flip_pending := true }
    let e2 := e1 ++ [Effect.dfb_surface_ref surface,
      Effect.drmModePageFlip (drmkms.encoder_crtc_id d1.primary_index) left_lock.handle
        DRM_MODE_PAGE_FLIP_EVENT true env.err]
    if env.err ≠ 0 then some ⟨d2, e2, errno2result env.errno⟩
    else
      let e3 := e2 ++ (if drmkms.shared.mirror_outputs then
                         mirrorFlips drmkms left_lock env.mirror_err else [])
      let e4 := e3 ++ (if flip then [Effect.dfb_surface_flip surface false] else [])
      if flags &&& DSFLIP_WAITFORSYNC = DSFLIP_WAITFORSYNC then
        match waitPendingFlip env.sync_waits d2 with
        | none => none
        | some (d3, e5) => some ⟨d3, e4 ++ e5, DFBResult.DFB_OK⟩
      else some ⟨d2, e4, DFBResult.DFB_OK⟩

/-- The function `drmkmsPrimaryFlipRegion`. -/
def drmkmsPrimaryFlipRegion (errno2result : Int → DFBResult) (drmkms : DRMKMSData)
    (data : DRMKMSLayerData) (surface : Nat) (flags : Nat) (left_lock : CoreSurfaceBufferLock)
    (env : SubmitEnv) : Option Outcome :=
  drmkmsPrimaryUpdateFlipRegion errno2result drmkms data surface flags left_lock true env

/-- The function `drmkmsPrimaryUpdateRegion`. -/
def drmkmsPrimaryUpdateRegion (errno2result : Int → DFBResult) (drmkms : DRMKMSData)
    (data : DRMKMSLayerData) (surface : Nat) (left_lock : CoreSurfaceBufferLock)
    (env : SubmitEnv) : Option Outcome :=
  drmkmsPrimaryUpdateFlipRegion errno2result drmkms data surface DSFLIP_ONSYNC left_lock false env

/-- The source rectangle in 16.16 fixed point, as passed to `drmModeSetPlane`
(`x << 16`, and so on). -/
def fixed16 (r : DFBRectangle) : DFBRectangle :=
  ⟨r.x * 65536, r.y * 65536, r.w * 65536, r.h * 65536⟩

/-- The function `drmkmsPlaneUpdateFlipRegion`. -/
def drmkmsPlaneUpdateFlipRegion (errno2result : Int → DFBResult) (drmkms : DRMKMSData)
    (data : DRMKMSLayerData) (surface : Nat) (flags : Nat) (left_lock : CoreSurfaceBufferLock)
    (flip : Bool) (env : SubmitEnv) : Option Outcome :=
  let config := data.config
  if config.source.w = 0 ∨ config.source.h = 0 ∨ config.dest.w = 0 ∨ config.dest.h = 0 then
    some ⟨data, [], DFBResult.DFB_INVARG⟩
  else
    match waitPendingFlip env.prev_waits data with
    | none => none
    | some (d1, e1) =>
      let d2 := { d1 with surface := surface, surfacebuffer_index := left_lock.buffer_index,
                          flip_pending := true }
      let e2 := e1 ++ [Effect.dfb_surface_ref surface]
      let e3 := e2 ++ (if d1.muted then [] else
        [Effect.drmModeSetPlane d1.plane_id (drmkms.encoder_crtc_id 0) left_lock.handle 0
           config.dest (fixed16 config.source) env.err])
      if d1.muted = false ∧ env.err ≠ 0 then some ⟨d2, e3, errno2result env.errno⟩
      else
        let e4 := e3 ++ (if flip then [Effect.dfb_surface_flip surface false] else [])
        let e5 := e4 ++ [Effect.drmWaitVBlank (DRM_VBLANK_EVENT ||| DRM_VBLANK_RELATIVE) 1 true
                           env.vblank_err]
        if flags &&& DSFLIP_WAITFORSYNC = DSFLIP_WAITFORSYNC then
          match waitPendingFlip env.sync_waits d2 with
          | none => none
          | some (d3, e6) => some ⟨d3, e5 ++ e6, DFBResult.DFB_OK⟩
        else some ⟨d2, e5, DFBResult.DFB_OK⟩

/-- The function `drmkmsPlaneFlipRegion`. -/
def drmkmsPlaneFlipRegion (errno2result : Int → DFBResult) (drmkms : DRMKMSData)
    (data : DRMKMSLayerData) (surface : Nat) (flags : Nat) (left_lock : CoreSurfaceBufferLock)
    (env : SubmitEnv) : Option Outcome :=
  drmkmsPlaneUpdateFlipRegion errno2result drmkms data surface flags left_lock true env

/-- The function `drmkmsPlaneUpdateRegion`. -/
def drmkmsPlaneUpdateRegion (errno2result : Int → DFBResult) (drmkms : DRMKMSData)
    (data : DRMKMSLayerData) (surface : Nat) (left_lock : CoreSurfaceBufferLock)
    (env : SubmitEnv) : Option Outcome :=
  drmkmsPlaneUpdateFlipRegion errno2result drmkms data surface DSFLIP_ONSYNC left_lock false env

/-- The function `drmkmsPlaneSetLevel`; `err` and `errno` are what
`drmModeObjectSetProperty` returns when it is reached. -/
def drmkmsPlaneSetLevel (errno2result : Int → DFBResult) (drmkms : DRMKMSData)
    (data : DRMKMSLayerData) (level : Int) (err : Int) (errno : Int) : Outcome :=
  if data.zpos_propid = 0 then ⟨data, [], DFBResult.DFB_UNSUPPORTED⟩
  else if level < 1 ∨ level > drmkms.shared.plane_index_count then
    ⟨data, [], DFBResult.DFB_INVARG⟩
  else
    let e := [Effect.drmModeObjectSetProperty data.plane_id DRM_MODE_OBJECT_PLANE
                data.zpos_propid level err]
    if err ≠ 0 then ⟨data, e, errno2result errno⟩
    else ⟨{ data with level := level }, e, DFBResult.DFB_OK⟩

/-- The function `drmkmsPlaneGetLevel`.  The argument `level` stands for the
out-pointer: `none` is `NULL`, `some v` a pointer to an `int` holding `v`; the
second component of the result is what the pointer refers to afterwards. -/
def drmkmsPlaneGetLevel (data : DRMKMSLayerData) (level : Option Int) : Outcome × Option Int :=
  (⟨data, [], DFBResult.DFB_OK⟩,
   match level with
   | some _ => some data.level
   | none => none)

/-- Modelled from the spec: region configuration flags (which part of the
region configuration an update changes) are declared outside
`drmkms_layer.c`; the values are those of the core header.  Flag
`CLRCF_WIDTH`. -/
def CLRCF_WIDTH : Nat := 0x00000001
/-- Modelled from the spec: flag `CLRCF_HEIGHT`, value of the core header. -/
def CLRCF_HEIGHT : Nat := 0x00000002
/-- Modelled from the spec: flag `CLRCF_BUFFERMODE`, value of the core header. -/
def CLRCF_BUFFERMODE : Nat := 0x00000010
/-- Modelled from the spec: flag `CLRCF_OPTIONS`, value of the core header. -/
def CLRCF_OPTIONS : Nat := 0x00000020
/-- Modelled from the spec: flag `CLRCF_SOURCE`, value of the core header. -/
def CLRCF_SOURCE : Nat := 0x00000100
/-- Modelled from the spec: flag `CLRCF_DEST`, value of the core header. -/
def CLRCF_DEST : Nat := 0x00000200
/-- Modelled from the spec: flag `CLRCF_OPACITY` (the opacity of the region
changes), value of the core header. -/
def CLRCF_OPACITY : Nat := 0x00001000
/-- Modelled from the spec: flag `CLRCF_SRCKEY`, value of the core header. -/
def CLRCF_SRCKEY : Nat := 0x00010000
/-- Modelled from the spec: layer option `DLOP_SRC_COLORKEY`, value of the
public header. -/
def DLOP_SRC_COLORKEY : Nat := 0x00000008

/-- A value of the C type `int` (32 bits, two's complement) from the
mathematical result of an operation on `int`s. -/
def int32 (x : Int) : Int := (x + 2147483648) % 4294967296 - 2147483648

/-- The alpha property value `(65535 * config->opacity + 127) / 255` of
`drmkmsPlaneSetRegion`, computed on `int`, `opacity` being an 8-bit value. -/
def alphaValue (opacity : Nat) : Int :=
  Int.tdiv (int32 (int32 (65535 * (opacity : Int)) + 127)) 255

/-- The colour key property value of `drmkmsPlaneSetRegion`:
`src_key.r << 16 | src_key.g << 8 | src_key.b`, with `0x01000000` set when the
options have `DLOP_SRC_COLORKEY`. -/
def colorkeyValue (config : CoreLayerRegionConfig) : Nat :=
  (config.src_key.r <<< 16 ||| config.src_key.g <<< 8 ||| config.src_key.b) |||
    (if config.options &&& DLOP_SRC_COLORKEY ≠ 0 then 0x01000000 else 0)

/-- The environment of one `drmkmsPlaneSetRegion`: return value and `errno` of
its `drmModeSetPlane` for the new geometry, of its `drmModeObjectSetProperty`
for the colour key, and of its call for the opacity (the null
`drmModeSetPlane` or the `drmModeObjectSetProperty` for alpha), each used only
if the call is reached. -/
structure RegionEnv where
  plane_err : Int
  plane_errno : Int
  colorkey_err : Int
  colorkey_errno : Int
  opacity_err : Int
  opacity_errno : Int
  deriving DecidableEq

/-- The function `drmkmsPlaneSetRegion`. -/
def drmkmsPlaneSetRegion (errno2result : Int → DFBResult) (drmkms : DRMKMSData)
    (data : DRMKMSLayerData) (config : CoreLayerRegionConfig) (updated : Nat)
    (left_lock : CoreSurfaceBufferLock) (env : RegionEnv) : Outcome :=
  let configure : Prop :=
    updated &&& (CLRCF_WIDTH ||| CLRCF_HEIGHT ||| CLRCF_BUFFERMODE ||| CLRCF_DEST |||
      CLRCF_SOURCE) ≠ 0 ∨
    (updated &&& CLRCF_OPACITY ≠ 0 ∧ data.muted = true ∧ config.opacity ≠ 0)
  let e1 := if configure then
      [Effect.drmModeSetPlane data.plane_id (drmkms.encoder_crtc_id 0) left_lock.handle 0
         config.dest (fixed16 config.source) env.plane_err]
    else []
  if configure ∧ env.plane_err ≠ 0 then ⟨data, e1, errno2result env.plane_errno⟩
  else
    let d1 := if configure then { data with config := config, muted := false } else data
    let setkey : Prop := updated &&& (CLRCF_SRCKEY ||| CLRCF_OPTIONS) ≠ 0 ∧ d1.colorkey_propid ≠ 0
    let e2 := e1 ++ (if setkey then
        [Effect.drmModeObjectSetProperty d1.plane_id DRM_MODE_OBJECT_PLANE d1.colorkey_propid
           (colorkeyValue config) env.colorkey_err]
      else [])
    if setkey ∧ env.colorkey_err ≠ 0 then ⟨d1, e2, errno2result env.colorkey_errno⟩
    else if updated &&& CLRCF_OPACITY ≠ 0 then
      if config.opacity = 0 then
        let e3 := e2 ++ [Effect.drmModeSetPlane d1.plane_id (drmkms.encoder_crtc_id 0) 0 0
                           ⟨0, 0, 0, 0⟩ ⟨0, 0, 0, 0⟩ env.opacity_err]
        if env.opacity_err ≠ 0 then ⟨d1, e3, DFBResult.DFB_FAILURE⟩
        else ⟨{ d1 with muted := true }, e3, DFBResult.DFB_OK⟩
      else if d1.alpha_propid ≠ 0 then
        let e3 := e2 ++ [Effect.drmModeObjectSetProperty d1.plane_id DRM_MODE_OBJECT_PLANE
                           d1.alpha_propid (alphaValue config.opacity) env.opacity_err]
        if env.opacity_err ≠ 0 then ⟨d1, e3, errno2result env.opacity_errno⟩
        else ⟨d1, e3, DFBResult.DFB_OK⟩
      else ⟨d1, e2, DFBResult.DFB_OK⟩
    else ⟨d1, e2, DFBResult.DFB_OK⟩

/-- A property of a plane as `drmModeGetProperty` returns it: its name and id. -/
structure PlaneProperty where
  name : String
  prop_id : Nat
  deriving DecidableEq

/-- The environment of one `drmkmsPlaneInitLayer`: the id of the plane
`drmModeGetPlane` returns for the new layer, the properties of that plane
(`none` when `drmModeObjectGetProperties` returns `NULL`), and the return value
of the `drmModeObjectSetProperty` for `zpos`, which the function ignores. -/
structure InitEnv where
  plane_id : Nat
  props : Option (List PlaneProperty)
  zpos_err : Int
  deriving DecidableEq

/-- One round of the loop over the properties in `drmkmsPlaneInitLayer`. -/
def initProperty (zpos_err : Int) (acc : DRMKMSLayerData × List Effect) (prop : PlaneProperty) :
    DRMKMSLayerData × List Effect :=
  if prop.name = "colorkey" then ({ acc.1 with colorkey_propid := prop.prop_id }, acc.2)
  else if prop.name = "zpos" then
    ({ acc.1 with zpos_propid := prop.prop_id },
     acc.2 ++ [Effect.drmModeObjectSetProperty acc.1.plane_id DRM_MODE_OBJECT_PLANE
                 prop.prop_id acc.1.level zpos_err])
  else if prop.name = "alpha" then ({ acc.1 with alpha_propid := prop.prop_id }, acc.2)
  else acc

/-- The function `drmkmsPlaneInitLayer`, on the shared data and the layer data;
the description and the default configuration it fills in for the core are
left out, and so are the libdrm queries, which change nothing. -/
def drmkmsPlaneInitLayer (drmkms : DRMKMSData) (data : DRMKMSLayerData) (env : InitEnv) :
    DRMKMSData × Outcome :=
  let count := drmkms.shared.plane_index_count + 1
  let drmkms1 := { drmkms with shared := { drmkms.shared with plane_index_count := count } }
  let d1 := { data with plane_index := count, level := count, plane_id := env.plane_id }
  match env.props with
  | none => (drmkms1, ⟨d1, [], DFBResult.DFB_OK⟩)
  | some props =>
    (drmkms1, ⟨(props.foldl (initProperty env.zpos_err) (d1, [])).1,
               (props.foldl (initProperty env.zpos_err) (d1, [])).2, DFBResult.DFB_OK⟩)

/-! ## Observations on a list of effects -/

/-- The surface of a `dfb_surface_ref` call. -/
def Effect.refOf : Effect → Option Nat
  | Effect.dfb_surface_ref s => some s
  | _ => none

/-- The surface of a `dfb_surface_unref` call. -/
def Effect.unrefOf : Effect → Option Nat
  | Effect.dfb_surface_unref s => some s
  | _ => none

/-- The arguments of a `dfb_surface_notify_display2` call. -/
def Effect.notificationOf : Effect → Option (Nat × Int)
  | Effect.dfb_surface_notify_display2 s i => some (s, i)
  | _ => none

/-- Whether the effect is a call into libdrm. -/
def Effect.isHardwareCall : Effect → Bool
  | Effect.drmModePageFlip _ _ _ _ _ => true
  | Effect.drmModeSetPlane _ _ _ _ _ _ _ => true
  | Effect.drmWaitVBlank _ _ _ _ => true
  | Effect.drmModeObjectSetProperty _ _ _ _ _ => true
  | _ => false

/-- The timeout of a `direct_waitqueue_wait_timeout` call. -/
def Effect.waitOf : Effect → Option Int
  | Effect.direct_waitqueue_wait_timeout t => some t
  | _ => none

/-- The timeouts, in microseconds, of the timed waits among the effects, in order. -/
def waitMicros (es : List Effect) : List Int := es.filterMap Effect.waitOf

/-- The total, in microseconds, of the timeouts of the timed waits among the effects. -/
def totalWait (es : List Effect) : Int := (waitMicros es).sum

/-- Whether the effect is a `drmModeSetPlane` call. -/
def Effect.isSetPlane : Effect → Bool
  | Effect.drmModeSetPlane _ _ _ _ _ _ _ => true
  | _ => false

/-- The surfaces on which `dfb_surface_ref` was called, in order. -/
def refs (es : List Effect) : List Nat := es.filterMap Effect.refOf

/-- The surfaces on which `dfb_surface_unref` was called, in order. -/
def unrefs (es : List Effect) : List Nat := es.filterMap Effect.unrefOf

/-- The arguments of the calls of `dfb_surface_notify_display2`, in order. -/
def notifications (es : List Effect) : List (Nat × Int) := es.filterMap Effect.notificationOf

/-- Reference-count accounting over all surfaces: references taken minus
references released. -/
def held (es : List Effect) : Int := ((refs es).length : Int) - ((unrefs es).length : Int)

/-- Reference-count accounting for one surface: references taken on `s` minus
references released on `s`. -/
def heldOn (s : Nat) (es : List Effect) : Int :=
  (((refs es).count s : Nat) : Int) - (((unrefs es).count s : Nat) : Int)

/-- The number of tracked submissions outstanding after one more effect, given
`n` before it: a libdrm call that requests an event for this layer and is
accepted (`err = 0`) adds one; a run of the event handler, which ends with the
one `direct_waitqueue_broadcast` of the file, completes one if there is any. -/
def Effect.outstandingAfter (n : Nat) : Effect → Nat
  | Effect.drmModePageFlip _ _ flags user_data err =>
    if flags &&& DRM_MODE_PAGE_FLIP_EVENT ≠ 0 ∧ user_data = true ∧ err = 0 then n + 1 else n
  | Effect.drmWaitVBlank request_type _ signal err =>
    if request_type &&& DRM_VBLANK_EVENT ≠ 0 ∧ signal = true ∧ err = 0 then n + 1 else n
  | Effect.direct_waitqueue_broadcast => n - 1
  | _ => n

/-- The number of tracked submissions accepted by the hardware and not yet
completed by an event, after the effects `es`, starting from `n`. -/
def outstandingFrom (n : Nat) (es : List Effect) : Nat := es.foldl Effect.outstandingAfter n

/-- The largest number of outstanding tracked submissions at any point during
the effects `es`, starting from `n`: the maximum of `outstandingFrom n` over
all initial segments of `es`. -/
def peakFrom : Nat → List Effect → Nat
  | n, [] => n
  | n, e :: es => max n (peakFrom (e.outstandingAfter n) es)

/-- The number of flips the layer data records as pending: `1` when
`flip_pending` is set, `0` otherwise. -/
def pendingCount (data : DRMKMSLayerData) : Nat := if data.flip_pending then 1 else 0

/-- The number of references the layer data accounts for on surface `s`: `1`
when a flip of `s` is recorded as pending, `0` otherwise. -/
def pendingOn (s : Nat) (data : DRMKMSLayerData) : Nat :=
  if data.flip_pending = true ∧ data.surface = s then 1 else 0

/-- The net effect of one wait loop, from `data` to `d` with effects `e`:
either nothing but waits happened and the data is unchanged, or a pending flip
was completed by one effective run of the handler at the end of the last wait. -/
def WaitRel (data d : DRMKMSLayerData) (e : List Effect) : Prop :=
  (d = data ∧ ∃ k, e = List.replicate k (Effect.direct_waitqueue_wait_timeout fliptimeout)) ∨
  (data.flip_pending = true ∧ d = { data with flip_pending := false } ∧
    ∃ k, e = List.replicate k (Effect.direct_waitqueue_wait_timeout fliptimeout) ++
      [Effect.dfb_surface_notify_display2 data.surface data.surfacebuffer_index,
       Effect.dfb_surface_unref data.surface, Effect.direct_waitqueue_broadcast])

/-- Whether the effect is one of the calls a submit makes between recording the
flip and waiting for it: a libdrm call or `dfb_surface_flip`. -/
def Effect.isSubmitCall : Effect → Bool
  | Effect.dfb_surface_flip _ _ => true
  | e => e.isHardwareCall

/-- The shape of a submit that gets past its checks, from `data` to `out`:
after the wait for the previous flip (from `data` to `d1`, effects `e1`) it
takes a reference on `surface`, records the surface, the buffer index and
`flip_pending`, makes its calls `hw`, which never raise the number of
outstanding tracked submissions by more than one, and may then wait for its
own flip (effects `e5`). -/
def SubmitShape (data : DRMKMSLayerData) (prev : List WaitOutcome) (surface : Nat)
    (index : Int) (out : Outcome) : Prop :=
  ∃ d1 e1 hw e5, waitPendingFlip prev data = some (d1, e1) ∧
    WaitRel { d1 with surface := surface, surfacebuffer_index := index, flip_pending := true }
      out.data e5 ∧
    out.effects = e1 ++ Effect.dfb_surface_ref surface :: hw ++ e5 ∧
    (∀ x ∈ hw, x.isSubmitCall = true) ∧
    (∀ n, peakFrom n hw ≤ n + 1)

/-! ## The life of one layer -/

/-- One step on one layer: a submit on a primary layer, a submit on a plane
layer, or an event delivered by the event thread while no submit is running. -/
inductive Step where
  | primary (surface : Nat) (flags : Nat) (left_lock : CoreSurfaceBufferLock) (flip : Bool)
      (env : SubmitEnv)
  | plane (surface : Nat) (flags : Nat) (left_lock : CoreSurfaceBufferLock) (flip : Bool)
      (env : SubmitEnv)
  | event

/-- The layer data together with all effects so far. -/
structure World where
  data : DRMKMSLayerData
  trace : List Effect
  deriving DecidableEq

/-- One step; `none` when a submit does not return (see `waitPendingFlip`). -/
def step (errno2result : Int → DFBResult) (drmkms : DRMKMSData) : Step → World → Option World
  | Step.primary surface flags left_lock flip env, w =>
    match drmkmsPrimaryUpdateFlipRegion errno2result drmkms w.data surface flags left_lock
        flip env with
    | none => none
    | some out => some ⟨out.data, w.trace ++ out.effects⟩
  | Step.plane surface flags left_lock flip env, w =>
    match drmkmsPlaneUpdateFlipRegion errno2result drmkms w.data surface flags left_lock
        flip env with
    | none => none
    | some out => some ⟨out.data, w.trace ++ out.effects⟩
  | Step.event, w =>
    some ⟨(drmkms_page_flip_handler w.data).1, w.trace ++ (drmkms_page_flip_handler w.data).2⟩

/-- A sequence of steps. -/
def run (errno2result : Int → DFBResult) (drmkms : DRMKMSData) : List Step → World → Option World
  | [], w => some w
  | s :: ss, w =>
    match step errno2result drmkms s w with
    | none => none
    | some w1 => run errno2result drmkms ss w1

/-- The surface a step submits is not `NULL`. -/
def Step.surfaceValid : Step → Prop
  | Step.primary surface _ _ _ _ => surface ≠ 0
  | Step.plane surface _ _ _ _ => surface ≠ 0
  | Step.event => True

/-- No wait for the previous flip times out with the flip still pending: each
such wait that returns `DR_TIMEOUT` had the event delivered during it. -/
def Step.prevWaitsComplete : Step → Prop
  | Step.primary _ _ _ _ env => ∀ w ∈ env.prev_waits, w.timed_out = true → w.event = true
  | Step.plane _ _ _ _ env => ∀ w ∈ env.prev_waits, w.timed_out = true → w.event = true
  | Step.event => True

/-- Some wait of the list ends the loop: it times out or has the event. -/
def resolves (ws : List WaitOutcome) : Bool := ws.any (fun w => w.timed_out || w.event)

/-! ## The plane layers of one device -/

/-- The device data, which holds the shared counter `plane_index_count`, and
the layer data of the plane layers initialised so far, in order. -/
structure PlaneSystem where
  drmkms : DRMKMSData
  planes : List DRMKMSLayerData

/-- One step on the plane layers: the initialisation of a new plane layer, on
the layer data `data` the core hands over, or a `drmkmsPlaneSetLevel` on the
plane at position `i` of the list. -/
inductive PlaneStep where
  | init (data : DRMKMSLayerData) (env : InitEnv)
  | setLevel (i : Nat) (level : Int) (err : Int) (errno : Int)

/-- One step on the plane layers. -/
def planeStep (errno2result : Int → DFBResult) (s : PlaneSystem) : PlaneStep → PlaneSystem
  | PlaneStep.init data env =>
    ⟨(drmkmsPlaneInitLayer s.drmkms data env).1,
     s.planes ++ [(drmkmsPlaneInitLayer s.drmkms data env).2.data]⟩
  | PlaneStep.setLevel i level err errno =>
    match s.planes[i]? with
    | none => s
    | some d =>
      ⟨s.drmkms, s.planes.set i (drmkmsPlaneSetLevel errno2result s.drmkms d level err errno).data⟩

/-- A sequence of steps on the plane layers. -/
def planeRun (errno2result : Int → DFBResult) (steps : List PlaneStep) (s : PlaneSystem) :
    PlaneSystem :=
  steps.foldl (planeStep errno2result) s

/-- The plane layers are numbered from 1 in the order of their initialisation,
the counter `plane_index_count` is their number, and every recorded level lies
between 1 and the counter. -/
def PlaneSystem.ordered (s : PlaneSystem) : Prop :=
  s.drmkms.shared.plane_index_count = (s.planes.length : Int) ∧
  ∀ (k : Nat) (d : DRMKMSLayerData), s.planes[k]? = some d →
    d.plane_index = (k : Int) + 1 ∧ 1 ≤ d.level ∧ d.level ≤ s.drmkms.shared.plane_index_count

/-! ## Concrete inputs -/

/-- A region configuration with a 640x480 source and destination. -/
def sampleConfig : CoreLayerRegionConfig :=
  ⟨⟨0, 0, 640, 480⟩, ⟨0, 0, 640, 480⟩, 255, 0, ⟨0, 0, 0⟩⟩

/-- A layer as zero-initialised by the core and then initialised and
configured: idle, no surface recorded. -/
def idleLayer : DRMKMSLayerData :=
  { primary_index := 0, plane_index := 1, plane_id := 31, colorkey_propid := 0,
    zpos_propid := 7, alpha_propid := 0, level := 1, config := sampleConfig, muted := false,
    surface := 0, surfacebuffer_index := 0, flip_pending := false }

/-- A layer with a flip of buffer 1 of surface 5 pending. -/
def pendingLayer : DRMKMSLayerData :=
  { idleLayer with surface := 5, surfacebuffer_index := 1, flip_pending := true }

/-- A pending plane layer whose recorded destination rectangle has height 0. -/
def degenerateLayer : DRMKMSLayerData :=
  { pendingLayer with config := { sampleConfig with dest := ⟨0, 0, 640, 0⟩ } }

/-- A plane layer without the z-order property. -/
def noZposLayer : DRMKMSLayerData := { idleLayer with zpos_propid := 0 }

/-- A device with three enabled CRTCs (ids 40, 41, 42) and two planes, mirroring off. -/
def sampleDevice : DRMKMSData :=
  { fd := 3, enabled_crtcs := 3, encoder_crtc_id := fun i => 40 + i.toNat,
    shared := ⟨false, 1, 2⟩ }

/-- A translation of `errno` values: `0` to `DFB_OK`, `EBUSY` (16) to
`DFB_BUSY`, `EINVAL` (22) to `DFB_INVARG`, `EACCES` (13) to
`DFB_ACCESSDENIED`, everything else to `DFB_FAILURE`. -/
def sampleErrno2result (e : Int) : DFBResult :=
  if e = 0 then DFBResult.DFB_OK
  else if e = 16 then DFBResult.DFB_BUSY
  else if e = 22 then DFBResult.DFB_INVARG
  else if e = 13 then DFBResult.DFB_ACCESSDENIED
  else DFBResult.DFB_FAILURE

/-- The lock on buffer 1 of a surface, framebuffer id 77. -/
def sampleLock : CoreSurfaceBufferLock := ⟨77, 1⟩

/-- An environment in which nothing is waited for and every libdrm call succeeds. -/
def okEnv : SubmitEnv :=
  { prev_waits := [], err := 0, errno := 0, mirror_err := fun _ => 0, vblank_err := 0,
    sync_waits := [] }

/-- An environment in which the tracked libdrm call fails with `EBUSY`. -/
def failEnv : SubmitEnv := { okEnv with err := -1, errno := 16 }

/-- An environment in which no event ever arrives: the wait for the previous
flip and the wait for the own flip both time out; all libdrm calls succeed
except the mirror flip on CRTC index 2. -/
def timeoutEnv : SubmitEnv :=
  { okEnv with prev_waits := [⟨false, true⟩], sync_waits := [⟨false, true⟩],
               mirror_err := fun i => if i = 2 then -1 else 0 }

/-- A run in which the second submit overruns the first: surface 5 is
submitted, then surface 6 is submitted while the first flip is still pending
and no event arrives, so that the wait for the previous flip times out. -/
def overrunSteps : List Step :=
  [Step.primary 5 0 sampleLock true okEnv, Step.primary 6 0 sampleLock true timeoutEnv]

/-- The world after `overrunSteps` from the idle layer. -/
def overrunWorld : World :=
  ⟨{ idleLayer with surface := 6, surfacebuffer_index := 1, flip_pending := true },
   [Effect.dfb_surface_ref 5, Effect.drmModePageFlip 40 77 1 true 0,
    Effect.dfb_surface_flip 5 false,
    Effect.direct_waitqueue_wait_timeout 200000,
    Effect.dfb_surface_ref 6, Effect.drmModePageFlip 40 77 1 true 0,
    Effect.dfb_surface_flip 6 false]⟩

/-- A run without overrun: surface 5 is submitted, its event arrives, surface 6
is submitted with `DSFLIP_WAITFORSYNC` and its event arrives during the wait,
surface 5 is submitted again but `drmModePageFlip` fails. -/
def orderlySteps : List Step :=
  [Step.primary 5 0 sampleLock true okEnv, Step.event,
   Step.primary 6 DSFLIP_WAITFORSYNC sampleLock true
     { okEnv with sync_waits := [⟨false, false⟩, ⟨true, false⟩] },
   Step.primary 5 0 sampleLock true failEnv]

/-- The world after `orderlySteps` from the idle layer. -/
def orderlyWorld : World :=
  ⟨{ idleLayer with surface := 5, surfacebuffer_index := 1, flip_pending := true },
   [Effect.dfb_surface_ref 5, Effect.drmModePageFlip 40 77 1 true 0,
    Effect.dfb_surface_flip 5 false,
    Effect.dfb_surface_notify_display2 5 1, Effect.dfb_surface_unref 5,
    Effect.direct_waitqueue_broadcast,
    Effect.dfb_surface_ref 6, Effect.drmModePageFlip 40 77 1 true 0,
    Effect.dfb_surface_flip 6 false,
    Effect.direct_waitqueue_wait_timeout 200000,
    Effect.direct_waitqueue_wait_timeout 200000,
    Effect.dfb_surface_notify_display2 6 1, Effect.dfb_surface_unref 6,
    Effect.direct_waitqueue_broadcast,
    Effect.dfb_surface_ref 5, Effect.drmModePageFlip 40 77 1 true (-1)]⟩

/-- A plane layer with the alpha property (id 9), idle, not muted. -/
def alphaLayer : DRMKMSLayerData := { idleLayer with alpha_propid := 9 }

/-- The same plane layer, muted. -/
def mutedLayer : DRMKMSLayerData := { alphaLayer with muted := true }

/-- An environment of `drmkmsPlaneSetRegion` in which every libdrm call succeeds. -/
def okRegionEnv : RegionEnv := ⟨0, 0, 0, 0, 0, 0⟩

/-- A device before any layer is initialised: no plane counted yet. -/
def freshDevice : DRMKMSData := { sampleDevice with shared := ⟨false, 0, 0⟩ }

/-- Layer data as the core hands it to `drmkmsPlaneInitLayer`: all zero. -/
def zeroLayer : DRMKMSLayerData :=
  { primary_index := 0, plane_index := 0, plane_id := 0, colorkey_propid := 0,
    zpos_propid := 0, alpha_propid := 0, level := 0,
    config := ⟨⟨0, 0, 0, 0⟩, ⟨0, 0, 0, 0⟩, 0, 0, ⟨0, 0, 0⟩⟩, muted := false,
    surface := 0, surfacebuffer_index := 0, flip_pending := false }

/-- The environment of the initialisation of a plane with the properties
`zpos` (id 7) and `alpha` (id 9). -/
def zposInitEnv (plane_id : Nat) : InitEnv :=
  ⟨plane_id, some [⟨"type", 5⟩, ⟨"zpos", 7⟩, ⟨"alpha", 9⟩], 0⟩

/-- Three plane layers are initialised, then the first is raised to level 3,
the second is refused level 4 and the third is lowered to level 1. -/
def levelSteps : List PlaneStep :=
  [PlaneStep.init zeroLayer (zposInitEnv 31), PlaneStep.init zeroLayer (zposInitEnv 32),
   PlaneStep.init zeroLayer (zposInitEnv 33), PlaneStep.setLevel 0 3 0 0,
   PlaneStep.setLevel 1 4 0 0, PlaneStep.setLevel 2 1 0 0]

theorem waitPendingFlip_idle (ws : List WaitOutcome) (data : DRMKMSLayerData)
    (h : data.flip_pending = false) : waitPendingFlip ws data = some (data, []) := by
  cases ws <;> simp [waitPendingFlip, h]

theorem waitPendingFlip_rel (ws : List WaitOutcome) :
    ∀ (data d : DRMKMSLayerData) (e : List Effect), waitPendingFlip ws data = some (d, e) →
      WaitRel data d e := by
  induction ws with
  | nil =>
    intro data d e h
    cases hp : data.flip_pending <;> simp [waitPendingFlip, hp] at h
    obtain ⟨rfl, rfl⟩ := h
    exact Or.inl ⟨rfl, 0, rfl⟩
  | cons w ws ih =>
    intro data d e h
    cases hp : data.flip_pending
    · simp [waitPendingFlip, hp] at h
      obtain ⟨rfl, rfl⟩ := h
      exact Or.inl ⟨rfl, 0, rfl⟩
    · cases ht : w.timed_out <;> cases he : w.event <;>
        simp [waitPendingFlip, hp, ht, he, direct_waitqueue_wait_timeout,
          drmkms_page_flip_handler] at h
      · cases hr : waitPendingFlip ws data with
        | none => simp [hr] at h
        | some r =>
          obtain ⟨d1, e1⟩ := r
          simp [hr] at h
          obtain ⟨rfl, rfl⟩ := h
          rcases ih data d1 e1 hr with ⟨rfl, k, rfl⟩ | ⟨-, rfl, k, rfl⟩
          · exact Or.inl ⟨rfl, k + 1, by simp [List.replicate_succ]⟩
          · exact Or.inr ⟨hp, rfl, k + 1, by simp [List.replicate_succ]⟩
      · rw [waitPendingFlip_idle ws _ rfl] at h
        simp at h
        obtain ⟨rfl, rfl⟩ := h
        exact Or.inr ⟨hp, rfl, 1, by simp⟩
      · obtain ⟨rfl, rfl⟩ := h
        exact Or.inl ⟨rfl, 1, by simp⟩
      · obtain ⟨rfl, rfl⟩ := h
        exact Or.inr ⟨hp, rfl, 1, by simp⟩

/-- When every timed-out wait had the event, the loop ends with no flip pending. -/
theorem waitPendingFlip_complete (ws : List WaitOutcome) :
    ∀ (data d : DRMKMSLayerData) (e : List Effect),
      (∀ w ∈ ws, w.timed_out = true → w.event = true) →
      waitPendingFlip ws data = some (d, e) → d.flip_pending = false := by
  induction ws with
  | nil =>
    intro data d e _ h
    cases hp : data.flip_pending <;> simp [waitPendingFlip, hp] at h
    obtain ⟨rfl, -⟩ := h
    exact hp
  | cons w ws ih =>
    intro data d e hc h
    cases hp : data.flip_pending
    · simp [waitPendingFlip, hp] at h
      obtain ⟨rfl, -⟩ := h
      exact hp
    · have hw := hc w (List.mem_cons_self _ _)
      have hc2 : ∀ v ∈ ws, v.timed_out = true → v.event = true :=
        fun v hv => hc v (List.mem_cons_of_mem _ hv)
      cases ht : w.timed_out
      · simp [waitPendingFlip, hp, ht] at h
        cases hr : waitPendingFlip ws (direct_waitqueue_wait_timeout w data).1 with
        | none => simp [hr] at h
        | some r =>
          obtain ⟨d1, e1⟩ := r
          simp [hr] at h
          obtain ⟨rfl, -⟩ := h
          exact ih _ _ _ hc2 hr
      · have he := hw ht
        simp [waitPendingFlip, hp, ht, he, direct_waitqueue_wait_timeout,
          drmkms_page_flip_handler] at h
        obtain ⟨rfl, -⟩ := h
        rfl

/-- The wait loop returns when the flip is not pending or some wait resolves. -/
theorem waitPendingFlip_returns (ws : List WaitOutcome) :
    ∀ (data : DRMKMSLayerData), (data.flip_pending = true → resolves ws = true) →
      ∃ r, waitPendingFlip ws data = some r := by
  induction ws with
  | nil =>
    intro data h
    cases hp : data.flip_pending
    · exact ⟨_, waitPendingFlip_idle _ _ hp⟩
    · simp [resolves, hp] at h
  | cons w ws ih =>
    intro data h
    cases hp : data.flip_pending
    · exact ⟨_, waitPendingFlip_idle _ _ hp⟩
    · cases ht : w.timed_out
      · cases he : w.event
        · have h2 : resolves ws = true := by
            have := h hp
            simpa [resolves, ht, he] using this
          obtain ⟨r, hr⟩ := ih data (fun _ => h2)
          refine ⟨(r.1, Effect.direct_waitqueue_wait_timeout fliptimeout :: r.2), ?_⟩
          simp [waitPendingFlip, hp, ht, he, direct_waitqueue_wait_timeout, hr]
        · simp only [waitPendingFlip, hp, ht, he, direct_waitqueue_wait_timeout, if_true]
          rw [waitPendingFlip_idle ws _ rfl]
          exact ⟨_, rfl⟩
      · simp only [waitPendingFlip, hp, ht, if_true]
        exact ⟨_, rfl⟩

theorem refs_append (a b : List Effect) : refs (a ++ b) = refs a ++ refs b := by
  simp [refs, List.filterMap_append]

theorem unrefs_append (a b : List Effect) : unrefs (a ++ b) = unrefs a ++ unrefs b := by
  simp [unrefs, List.filterMap_append]

theorem held_append (a b : List Effect) : held (a ++ b) = held a + held b := by
  simp only [held, refs_append, unrefs_append, List.length_append]
  push_cast
  ring

theorem heldOn_append (s : Nat) (a b : List Effect) :
    heldOn s (a ++ b) = heldOn s a + heldOn s b := by
  simp only [heldOn, refs_append, unrefs_append, List.count_append]
  push_cast
  ring

theorem outstandingFrom_append (n : Nat) (a b : List Effect) :
    outstandingFrom n (a ++ b) = outstandingFrom (outstandingFrom n a) b := by
  simp [outstandingFrom, List.foldl_append]

theorem refs_replicate_wait (t : Int) (k : Nat) :
    refs (List.replicate k (Effect.direct_waitqueue_wait_timeout t)) = [] := by
  induction k with
  | zero => rfl
  | succ k ih => simp [refs, List.replicate_succ, Effect.refOf]

theorem unrefs_replicate_wait (t : Int) (k : Nat) :
    unrefs (List.replicate k (Effect.direct_waitqueue_wait_timeout t)) = [] := by
  induction k with
  | zero => rfl
  | succ k ih => simp [unrefs, List.replicate_succ, Effect.unrefOf]

theorem outstandingFrom_replicate_wait (t : Int) (k n : Nat) :
    outstandingFrom n (List.replicate k (Effect.direct_waitqueue_wait_timeout t)) = n := by
  induction k with
  | zero => rfl
  | succ k ih =>
    simpa [outstandingFrom, List.replicate_succ, Effect.outstandingAfter] using ih

/-- A wait loop takes no reference. -/
theorem WaitRel.refs_eq {data d : DRMKMSLayerData} {e : List Effect} (h : WaitRel data d e) :
    refs e = [] := by
  rcases h with ⟨-, k, rfl⟩ | ⟨-, -, k, rfl⟩
  · exact refs_replicate_wait _ _
  · rw [refs_append, refs_replicate_wait]
    simp [refs, Effect.refOf]

/-- A wait loop releases the recorded surface once if it completes a pending
flip, and nothing otherwise. -/
theorem WaitRel.unrefs_eq {data d : DRMKMSLayerData} {e : List Effect} (h : WaitRel data d e) :
    unrefs e = if data.flip_pending = true ∧ d.flip_pending = false then [data.surface]
      else [] := by
  rcases h with ⟨rfl, k, rfl⟩ | ⟨hp, rfl, k, rfl⟩
  · rw [unrefs_replicate_wait]
    cases hd : d.flip_pending <;> simp
  · rw [unrefs_append, unrefs_replicate_wait]
    simp [unrefs, Effect.unrefOf, hp]

/-- A wait loop keeps every field but `flip_pending`, which it can only clear. -/
theorem WaitRel.data_eq {data d : DRMKMSLayerData} {e : List Effect} (h : WaitRel data d e) :
    d = data ∨ (data.flip_pending = true ∧ d = { data with flip_pending := false }) := by
  rcases h with ⟨rfl, -⟩ | ⟨hp, rfl, -⟩
  · exact Or.inl rfl
  · exact Or.inr ⟨hp, rfl⟩

theorem WaitRel.held_eq {data d : DRMKMSLayerData} {e : List Effect} (h : WaitRel data d e) :
    held e + (pendingCount data : Int) = (pendingCount d : Int) := by
  have hr := h.refs_eq
  have hu := h.unrefs_eq
  rcases h.data_eq with rfl | ⟨hp, rfl⟩
  · cases hd : d.flip_pending <;> simp [held, hr, hu, hd]
  · simp [held, hr, hu, hp, pendingCount]

theorem WaitRel.heldOn_eq {data d : DRMKMSLayerData} {e : List Effect} (h : WaitRel data d e)
    (s : Nat) : heldOn s e + (pendingOn s data : Int) = (pendingOn s d : Int) := by
  have hr := h.refs_eq
  have hu := h.unrefs_eq
  rcases h.data_eq with rfl | ⟨hp, rfl⟩
  · cases hd : d.flip_pending <;> simp [heldOn, hr, hu, hd]
  · by_cases hs : data.surface = s
    · simp [heldOn, hr, hu, hp, pendingOn, hs]
    · have hc : List.count s [data.surface] = 0 :=
        List.count_eq_zero.mpr (by simpa using fun h => hs h.symm)
      simp [heldOn, hr, hu, hp, pendingOn, hs, hc]

theorem WaitRel.outstanding_le {data d : DRMKMSLayerData} {e : List Effect}
    (h : WaitRel data d e) (n : Nat) (hn : n ≤ pendingCount data) :
    outstandingFrom n e ≤ pendingCount d := by
  rcases h with ⟨rfl, k, rfl⟩ | ⟨hp, rfl, k, rfl⟩
  · rw [outstandingFrom_replicate_wait]
    exact hn
  · rw [outstandingFrom_append, outstandingFrom_replicate_wait]
    simp [pendingCount, hp] at hn
    simp [outstandingFrom, Effect.outstandingAfter, pendingCount]
    omega

theorem WaitRel.refl (data : DRMKMSLayerData) : WaitRel data data [] :=
  Or.inl ⟨rfl, 0, rfl⟩

/-! ## Outstanding tracked submissions -/

theorem le_peakFrom (es : List Effect) : ∀ n, n ≤ peakFrom n es := by
  cases es with
  | nil => intro n; exact Nat.le_refl n
  | cons x xs => intro n; exact Nat.le_max_left _ _

theorem peakFrom_append (a b : List Effect) :
    ∀ n, peakFrom n (a ++ b) = max (peakFrom n a) (peakFrom (outstandingFrom n a) b) := by
  induction a with
  | nil =>
    intro n
    simp only [List.nil_append, peakFrom, outstandingFrom, List.foldl_nil]
    exact (Nat.max_eq_right (le_peakFrom b n)).symm
  | cons x xs ih =>
    intro n
    have h := ih (Effect.outstandingAfter n x)
    show max n (peakFrom (Effect.outstandingAfter n x) (xs ++ b))
      = max (max n (peakFrom (Effect.outstandingAfter n x) xs))
          (peakFrom (outstandingFrom (Effect.outstandingAfter n x) xs) b)
    rw [h, Nat.max_assoc]

/-- The outstanding count after any initial segment is at most the peak. -/
theorem outstandingFrom_take_le_peakFrom (es : List Effect) :
    ∀ (n k : Nat), outstandingFrom n (es.take k) ≤ peakFrom n es := by
  induction es with
  | nil =>
    intro n k
    simp [outstandingFrom, peakFrom]
  | cons x xs ih =>
    intro n k
    cases k with
    | zero => simpa [outstandingFrom] using le_peakFrom (x :: xs) n
    | succ k =>
      have := ih (Effect.outstandingAfter n x) k
      simp only [List.take_succ_cons, peakFrom]
      exact Nat.le_trans this (Nat.le_max_right _ _)

theorem outstandingFrom_le_peakFrom (es : List Effect) (n : Nat) :
    outstandingFrom n es ≤ peakFrom n es := by
  have := outstandingFrom_take_le_peakFrom es n es.length
  simpa using this

/-- Effects none of which is an accepted tracked submission never raise the
outstanding count. -/
theorem peakFrom_of_no_submission (es : List Effect)
    (h : ∀ x ∈ es, ∀ m, Effect.outstandingAfter m x ≤ m) : ∀ n, peakFrom n es = n := by
  induction es with
  | nil => intro n; rfl
  | cons x xs ih =>
    intro n
    have hx := h x (List.mem_cons_self _ _) n
    have hxs := ih (fun y hy => h y (List.mem_cons_of_mem _ hy)) (Effect.outstandingAfter n x)
    simp only [peakFrom, hxs]
    exact Nat.max_eq_left hx

theorem peakFrom_replicate_wait (t : Int) (k n : Nat) :
    peakFrom n (List.replicate k (Effect.direct_waitqueue_wait_timeout t)) = n := by
  apply peakFrom_of_no_submission
  intro x hx m
  rw [List.eq_of_mem_replicate hx]
  exact Nat.le_refl m

theorem WaitRel.peak_eq {data d : DRMKMSLayerData} {e : List Effect} (h : WaitRel data d e)
    (n : Nat) : peakFrom n e = n := by
  rcases h with ⟨-, k, rfl⟩ | ⟨-, -, k, rfl⟩
  · exact peakFrom_replicate_wait _ _ _
  · rw [peakFrom_append, peakFrom_replicate_wait, outstandingFrom_replicate_wait]
    simp [peakFrom, Effect.outstandingAfter]

theorem peakFrom_handler (data : DRMKMSLayerData) (n : Nat) :
    peakFrom n (drmkms_page_flip_handler data).2 = n := by
  cases hp : data.flip_pending <;>
    simp [drmkms_page_flip_handler, hp, peakFrom, Effect.outstandingAfter]

theorem peakFrom_mirrorFlips (drmkms : DRMKMSData) (left_lock : CoreSurfaceBufferLock)
    (mirror_err : Nat → Int) (n : Nat) :
    peakFrom n (mirrorFlips drmkms left_lock mirror_err) = n := by
  apply peakFrom_of_no_submission
  intro x hx m
  simp only [mirrorFlips, List.mem_map] at hx
  obtain ⟨i, -, rfl⟩ := hx
  simp [Effect.outstandingAfter, DRM_MODE_PAGE_FLIP_ASYNC, DRM_MODE_PAGE_FLIP_EVENT]

/-! ## The shape of a submit -/

theorem refOf_submitCall (x : Effect) (h : x.isSubmitCall = true) : x.refOf = none := by
  cases x <;> first | rfl | exact absurd h (by simp [Effect.isSubmitCall, Effect.isHardwareCall])

theorem unrefOf_submitCall (x : Effect) (h : x.isSubmitCall = true) : x.unrefOf = none := by
  cases x <;> first | rfl | exact absurd h (by simp [Effect.isSubmitCall, Effect.isHardwareCall])

theorem refs_submitCalls (hw : List Effect) (h : ∀ x ∈ hw, x.isSubmitCall = true) :
    refs hw = [] := by
  induction hw with
  | nil => rfl
  | cons x xs ih =>
    have hx := refOf_submitCall x (h x (List.mem_cons_self _ _))
    have hxs := ih (fun y hy => h y (List.mem_cons_of_mem _ hy))
    unfold refs at hxs ⊢
    rw [List.filterMap_cons, hx]
    exact hxs

theorem unrefs_submitCalls (hw : List Effect) (h : ∀ x ∈ hw, x.isSubmitCall = true) :
    unrefs hw = [] := by
  induction hw with
  | nil => rfl
  | cons x xs ih =>
    have hx := unrefOf_submitCall x (h x (List.mem_cons_self _ _))
    have hxs := ih (fun y hy => h y (List.mem_cons_of_mem _ hy))
    unfold unrefs at hxs ⊢
    rw [List.filterMap_cons, hx]
    exact hxs

theorem mirrorFlips_submitCalls (drmkms : DRMKMSData) (left_lock : CoreSurfaceBufferLock)
    (mirror_err : Nat → Int) :
    ∀ x ∈ mirrorFlips drmkms left_lock mirror_err, x.isSubmitCall = true := by
  intro x hx
  simp only [mirrorFlips, List.mem_map] at hx
  obtain ⟨i, -, rfl⟩ := hx
  rfl

theorem outstandingFrom_map_untracked (f : Nat → Effect)
    (hf : ∀ i n, Effect.outstandingAfter n (f i) = n) (l : List Nat) (n : Nat) :
    outstandingFrom n (l.map f) = n := by
  induction l with
  | nil => rfl
  | cons i l ih => simpa [outstandingFrom, hf] using ih

theorem outstandingFrom_mirrorFlips (drmkms : DRMKMSData) (left_lock : CoreSurfaceBufferLock)
    (mirror_err : Nat → Int) (n : Nat) :
    outstandingFrom n (mirrorFlips drmkms left_lock mirror_err) = n := by
  unfold mirrorFlips
  apply outstandingFrom_map_untracked
  intro i n
  simp [Effect.outstandingAfter, DRM_MODE_PAGE_FLIP_ASYNC, DRM_MODE_PAGE_FLIP_EVENT]

/-- Every return of `drmkmsPrimaryUpdateFlipRegion` has the shape of a submit. -/
theorem primary_shape (errno2result : Int → DFBResult) (drmkms : DRMKMSData)
    (data : DRMKMSLayerData) (surface flags : Nat) (left_lock : CoreSurfaceBufferLock)
    (flip : Bool) (env : SubmitEnv) (out : Outcome)
    (h : drmkmsPrimaryUpdateFlipRegion errno2result drmkms data surface flags left_lock flip env
      = some out) :
    SubmitShape data env.prev_waits surface left_lock.buffer_index out := by
  unfold drmkmsPrimaryUpdateFlipRegion at h
  cases h1 : waitPendingFlip env.prev_waits data with
  | none => simp [h1] at h
  | some r =>
    obtain ⟨d1, e1⟩ := r
    simp only [h1] at h
    by_cases herr : env.err = 0
    · simp only [herr, ne_eq, not_true_eq_false, if_false] at h
      have hcalls : ∀ x ∈ Effect.drmModePageFlip (drmkms.encoder_crtc_id d1.primary_index)
            left_lock.handle DRM_MODE_PAGE_FLIP_EVENT true 0 ::
          ((if drmkms.shared.mirror_outputs = true then
              mirrorFlips drmkms left_lock env.mirror_err else []) ++
            (if flip = true then [Effect.dfb_surface_flip surface false] else [])),
          x.isSubmitCall = true := by
        intro x hx
        simp only [List.mem_cons, List.mem_append] at hx
        rcases hx with rfl | hx | hx
        · rfl
        · split at hx
          · exact mirrorFlips_submitCalls _ _ _ x hx
          · simp at hx
        · split at hx
          · simp at hx
            subst hx
            rfl
          · simp at hx
      have hout : ∀ n, peakFrom n
          (Effect.drmModePageFlip (drmkms.encoder_crtc_id d1.primary_index)
            left_lock.handle DRM_MODE_PAGE_FLIP_EVENT true 0 ::
          ((if drmkms.shared.mirror_outputs = true then
              mirrorFlips drmkms left_lock env.mirror_err else []) ++
            (if flip = true then [Effect.dfb_surface_flip surface false] else []))) ≤ n + 1 := by
        intro n
        have hm : ∀ m, peakFrom m (if drmkms.shared.mirror_outputs = true then
              mirrorFlips drmkms left_lock env.mirror_err else []) = m := by
          intro m
          split
          · exact peakFrom_mirrorFlips _ _ _ _
          · rfl
        have hm2 : ∀ m, outstandingFrom m (if drmkms.shared.mirror_outputs = true then
              mirrorFlips drmkms left_lock env.mirror_err else []) = m := by
          intro m
          split
          · exact outstandingFrom_mirrorFlips _ _ _ _
          · rfl
        have hf : ∀ m, peakFrom m (if flip = true then [Effect.dfb_surface_flip surface false]
            else []) = m := by
          intro m
          cases flip <;> simp [peakFrom, Effect.outstandingAfter]
        simp only [peakFrom, peakFrom_append, hm, hm2, hf]
        simp [Effect.outstandingAfter, DRM_MODE_PAGE_FLIP_EVENT]
      by_cases hsync : flags &&& DSFLIP_WAITFORSYNC = DSFLIP_WAITFORSYNC
      · simp only [hsync, if_true] at h
        cases h2 : waitPendingFlip env.sync_waits
            { d1 with surface := surface, surfacebuffer_index := left_lock.buffer_index,
                      flip_pending := true } with
        | none => simp [h2] at h
        | some r2 =>
          obtain ⟨d3, e5⟩ := r2
          simp only [h2, Option.some.injEq] at h
          subst h
          exact ⟨d1, e1, _, e5, h1, waitPendingFlip_rel _ _ _ _ h2, by simp, hcalls, hout⟩
      · simp only [hsync, if_false, Option.some.injEq] at h
        subst h
        exact ⟨d1, e1, _, [], h1, WaitRel.refl _, by simp, hcalls, hout⟩
    · simp only [herr, ne_eq, not_false_eq_true, if_true, Option.some.injEq] at h
      subst h
      refine ⟨d1, e1, [Effect.drmModePageFlip (drmkms.encoder_crtc_id d1.primary_index)
        left_lock.handle DRM_MODE_PAGE_FLIP_EVENT true env.err], [], h1, WaitRel.refl _,
        by simp, ?_, ?_⟩
      · intro x hx
        simp at hx
        subst hx
        rfl
      · intro n
        simp [peakFrom, Effect.outstandingAfter, herr]

/-- Every return of `drmkmsPlaneUpdateFlipRegion` is either the rejection of a
degenerate geometry, with nothing done, or has the shape of a submit. -/
theorem plane_shape (errno2result : Int → DFBResult) (drmkms : DRMKMSData)
    (data : DRMKMSLayerData) (surface flags : Nat) (left_lock : CoreSurfaceBufferLock)
    (flip : Bool) (env : SubmitEnv) (out : Outcome)
    (h : drmkmsPlaneUpdateFlipRegion errno2result drmkms data surface flags left_lock flip env
      = some out) :
    out = ⟨data, [], DFBResult.DFB_INVARG⟩ ∨
    SubmitShape data env.prev_waits surface left_lock.buffer_index out := by
  unfold drmkmsPlaneUpdateFlipRegion at h
  by_cases hdeg : data.config.source.w = 0 ∨ data.config.source.h = 0 ∨
      data.config.dest.w = 0 ∨ data.config.dest.h = 0
  · simp only [hdeg, if_true, Option.some.injEq] at h
    exact Or.inl h.symm
  · right
    simp only [hdeg, if_false] at h
    cases h1 : waitPendingFlip env.prev_waits data with
    | none => simp [h1] at h
    | some r =>
      obtain ⟨d1, e1⟩ := r
      simp only [h1] at h
      by_cases hfail : d1.muted = false ∧ env.err ≠ 0
      · rw [if_pos hfail] at h
        simp only [Option.some.injEq] at h
        subst h
        refine ⟨d1, e1, (if d1.muted = true then [] else
          [Effect.drmModeSetPlane d1.plane_id (drmkms.encoder_crtc_id 0)
            left_lock.handle 0 data.config.dest (fixed16 data.config.source) env.err]), [], h1,
          WaitRel.refl _, by simp, ?_, ?_⟩
        · intro x hx
          simp [hfail.1] at hx
          subst hx
          rfl
        · intro n
          simp [hfail.1, peakFrom, Effect.outstandingAfter]
      · rw [if_neg hfail] at h
        have hcalls : ∀ x ∈ (if d1.muted = true then [] else
              [Effect.drmModeSetPlane d1.plane_id (drmkms.encoder_crtc_id 0) left_lock.handle 0
                data.config.dest (fixed16 data.config.source) env.err]) ++
            ((if flip = true then [Effect.dfb_surface_flip surface false] else []) ++
              [Effect.drmWaitVBlank (DRM_VBLANK_EVENT ||| DRM_VBLANK_RELATIVE) 1 true
                env.vblank_err]),
            x.isSubmitCall = true := by
          intro x hx
          simp only [List.mem_append] at hx
          rcases hx with hx | hx | hx
          · split at hx
            · simp at hx
            · simp at hx
              subst hx
              rfl
          · split at hx
            · simp at hx
              subst hx
              rfl
            · simp at hx
          · simp at hx
            subst hx
            rfl
        have hout : ∀ n, peakFrom n ((if d1.muted = true then [] else
              [Effect.drmModeSetPlane d1.plane_id (drmkms.encoder_crtc_id 0) left_lock.handle 0
                data.config.dest (fixed16 data.config.source) env.err]) ++
            ((if flip = true then [Effect.dfb_surface_flip surface false] else []) ++
              [Effect.drmWaitVBlank (DRM_VBLANK_EVENT ||| DRM_VBLANK_RELATIVE) 1 true
                env.vblank_err])) ≤ n + 1 := by
          intro n
          cases d1.muted <;> cases flip <;>
            simp [peakFrom, Effect.outstandingAfter] <;> split <;> omega
        by_cases hsync : flags &&& DSFLIP_WAITFORSYNC = DSFLIP_WAITFORSYNC
        · simp only [hsync, if_true] at h
          cases h2 : waitPendingFlip env.sync_waits
              { d1 with surface := surface, surfacebuffer_index := left_lock.buffer_index,
                        flip_pending := true } with
          | none => simp [h2] at h
          | some r2 =>
            obtain ⟨d3, e5⟩ := r2
            simp only [h2, Option.some.injEq] at h
            subst h
            exact ⟨d1, e1, _, e5, h1, waitPendingFlip_rel _ _ _ _ h2, by simp, hcalls, hout⟩
        · simp only [hsync, if_false, Option.some.injEq] at h
          subst h
          exact ⟨d1, e1, _, [], h1, WaitRel.refl _, by simp, hcalls, hout⟩

/-! ## The completion handler -/

/-- C1. Completion when pending: from a state with `flip_pending = true`, one
run of `drmkms_page_flip_handler` releases exactly one reference, the one on
the recorded surface, issues exactly one display notification, with the
recorded surface and the recorded buffer index, and leaves
`flip_pending = false` with every other field as it was. -/
theorem page_flip_handler_pending (data : DRMKMSLayerData) (h : data.flip_pending = true) :
    unrefs (drmkms_page_flip_handler data).2 = [data.surface] ∧
    notifications (drmkms_page_flip_handler data).2
      = [(data.surface, data.surfacebuffer_index)] ∧
    (drmkms_page_flip_handler data).1.flip_pending = false ∧
    (drmkms_page_flip_handler data).1 = { data with flip_pending := false } := by
  simp [drmkms_page_flip_handler, h, unrefs, notifications, Effect.unrefOf,
    Effect.notificationOf]

/-- C1 at a concrete input: a flip of buffer 1 of surface 5 is pending. -/
theorem page_flip_handler_pending_witness :
    pendingLayer.flip_pending = true ∧
    unrefs (drmkms_page_flip_handler pendingLayer).2 = [5] ∧
    notifications (drmkms_page_flip_handler pendingLayer).2 = [(5, 1)] ∧
    (drmkms_page_flip_handler pendingLayer).1.flip_pending = false :=
  have h := page_flip_handler_pending pendingLayer rfl
  ⟨rfl, h.1, h.2.1, h.2.2.1⟩

/-- C2. Idempotent completion: from a state with `flip_pending = false` the
handler releases no reference, issues no notification and returns the state
unchanged; and from any state a second run right after the first leaves the
state, the released references and the notifications of the first run as they
are. -/
theorem page_flip_handler_idempotent (data : DRMKMSLayerData) :
    (data.flip_pending = false →
      unrefs (drmkms_page_flip_handler data).2 = [] ∧
      notifications (drmkms_page_flip_handler data).2 = [] ∧
      (drmkms_page_flip_handler data).1 = data) ∧
    (drmkms_page_flip_handler (drmkms_page_flip_handler data).1).1
        = (drmkms_page_flip_handler data).1 ∧
    unrefs ((drmkms_page_flip_handler data).2 ++
        (drmkms_page_flip_handler (drmkms_page_flip_handler data).1).2)
        = unrefs (drmkms_page_flip_handler data).2 ∧
    notifications ((drmkms_page_flip_handler data).2 ++
        (drmkms_page_flip_handler (drmkms_page_flip_handler data).1).2)
        = notifications (drmkms_page_flip_handler data).2 := by
  cases hp : data.flip_pending <;>
    simp [drmkms_page_flip_handler, hp, unrefs, notifications, Effect.unrefOf,
      Effect.notificationOf]
  cases data
  simp_all

/-- C2 at a concrete input: the idle layer. -/
theorem page_flip_handler_idempotent_witness :
    idleLayer.flip_pending = false ∧
    unrefs (drmkms_page_flip_handler idleLayer).2 = [] ∧
    notifications (drmkms_page_flip_handler idleLayer).2 = [] ∧
    (drmkms_page_flip_handler idleLayer).1 = idleLayer :=
  ⟨rfl, (page_flip_handler_idempotent idleLayer).1 rfl⟩

/-! ## Failure of the tracked hardware call -/

/-- C3. Rollback on hardware failure does not happen: on an idle layer, when
the tracked libdrm call of a submit fails (`drmModePageFlip` on a primary
layer, `drmModeSetPlane` on a plane layer that is not muted and has a
non-degenerate geometry), the call returns the translated error, but it leaves
`flip_pending = true` with the surface recorded, and the reference it took on
the surface is not released. -/
theorem submit_failure_not_rolled_back (errno2result : Int → DFBResult) (drmkms : DRMKMSData)
    (data : DRMKMSLayerData) (surface flags : Nat) (left_lock : CoreSurfaceBufferLock)
    (flip : Bool) (env : SubmitEnv) (hidle : data.flip_pending = false)
    (herr : env.err ≠ 0) :
    drmkmsPrimaryUpdateFlipRegion errno2result drmkms data surface flags left_lock flip env
      = some ⟨{ data with surface := surface, surfacebuffer_index := left_lock.buffer_index,
                          flip_pending := true },
              [Effect.dfb_surface_ref surface,
               Effect.drmModePageFlip (drmkms.encoder_crtc_id data.primary_index)
                 left_lock.handle DRM_MODE_PAGE_FLIP_EVENT true env.err],
              errno2result env.errno⟩ ∧
    (data.muted = false →
      ¬ (data.config.source.w = 0 ∨ data.config.source.h = 0 ∨
         data.config.dest.w = 0 ∨ data.config.dest.h = 0) →
      drmkmsPlaneUpdateFlipRegion errno2result drmkms data surface flags left_lock flip env
        = some ⟨{ data with surface := surface, surfacebuffer_index := left_lock.buffer_index,
                            flip_pending := true },
                [Effect.dfb_surface_ref surface,
                 Effect.drmModeSetPlane data.plane_id (drmkms.encoder_crtc_id 0)
                   left_lock.handle 0 data.config.dest (fixed16 data.config.source) env.err],
                errno2result env.errno⟩) := by
  constructor
  · simp [drmkmsPrimaryUpdateFlipRegion, waitPendingFlip_idle _ _ hidle, herr]
  · intro hm hdeg
    simp [drmkmsPlaneUpdateFlipRegion, waitPendingFlip_idle _ _ hidle, herr, hm, hdeg]

/-- C3, at a concrete input: an idle layer, surface 5, `drmModePageFlip`
failing with `EBUSY`.  The call returns `DFB_BUSY`; afterwards `flip_pending`
is set and one reference on surface 5 is held and not released. -/
theorem submit_failure_not_rolled_back_witness :
    idleLayer.flip_pending = false ∧ failEnv.err ≠ 0 ∧
    (drmkmsPrimaryUpdateFlipRegion sampleErrno2result sampleDevice idleLayer 5 0 sampleLock
        true failEnv).map (fun out => (out.ret, out.data.flip_pending, held out.effects))
      = some (DFBResult.DFB_BUSY, true, 1) :=
  ⟨rfl, by decide, by
    rw [(submit_failure_not_rolled_back sampleErrno2result sampleDevice idleLayer 5 0 sampleLock
      true failEnv rfl (by decide)).1]
    decide⟩

/-! ## Degenerate geometry -/

/-- C9. Degenerate geometry rejected: when the recorded region configuration
has a zero source width, source height, destination width or destination
height, `drmkmsPlaneUpdateFlipRegion`, and with it `drmkmsPlaneFlipRegion` and
`drmkmsPlaneUpdateRegion`, returns `DFB_INVARG` with an empty list of effects (so no
libdrm call is made and no reference is taken) and the layer data unchanged,
whatever the environment and whether or not a flip is pending. -/
theorem plane_degenerate_geometry_rejected (errno2result : Int → DFBResult)
    (drmkms : DRMKMSData) (data : DRMKMSLayerData) (surface flags : Nat)
    (left_lock : CoreSurfaceBufferLock) (flip : Bool) (env : SubmitEnv)
    (hdeg : data.config.source.w = 0 ∨ data.config.source.h = 0 ∨
            data.config.dest.w = 0 ∨ data.config.dest.h = 0) :
    drmkmsPlaneUpdateFlipRegion errno2result drmkms data surface flags left_lock flip env
      = some ⟨data, [], DFBResult.DFB_INVARG⟩ ∧
    drmkmsPlaneFlipRegion errno2result drmkms data surface flags left_lock env
      = some ⟨data, [], DFBResult.DFB_INVARG⟩ ∧
    drmkmsPlaneUpdateRegion errno2result drmkms data surface left_lock env
      = some ⟨data, [], DFBResult.DFB_INVARG⟩ := by
  simp [drmkmsPlaneFlipRegion, drmkmsPlaneUpdateRegion, drmkmsPlaneUpdateFlipRegion, hdeg]

/-- C9 at a concrete input: a pending plane layer whose destination height is 0. -/
theorem plane_degenerate_geometry_rejected_witness :
    drmkmsPlaneUpdateFlipRegion sampleErrno2result sampleDevice degenerateLayer 6
        DSFLIP_WAITFORSYNC sampleLock true timeoutEnv
      = some ⟨degenerateLayer, [], DFBResult.DFB_INVARG⟩ :=
  (plane_degenerate_geometry_rejected sampleErrno2result sampleDevice degenerateLayer 6
    DSFLIP_WAITFORSYNC sampleLock true timeoutEnv (by decide)).1

/-! ## Level bounds -/

/-- C10. Level bounds.  `drmkmsPlaneSetLevel` returns `DFB_UNSUPPORTED` when
the plane lacks the z-order property (`zpos_propid == 0`); on a plane that has
it, it returns `DFB_INVARG` when `level <= 0` or `level > plane_index_count`.
In both cases the layer data, and so the recorded level, is unchanged and no
call is made.  Whether the plane has the property or not, a level out of range
is never accepted: the call fails with one of the two errors, nothing changed
and nothing called. -/
theorem plane_set_level_bounds (errno2result : Int → DFBResult) (drmkms : DRMKMSData)
    (data : DRMKMSLayerData) (level err errno : Int) :
    (data.zpos_propid = 0 →
      drmkmsPlaneSetLevel errno2result drmkms data level err errno
        = ⟨data, [], DFBResult.DFB_UNSUPPORTED⟩) ∧
    (data.zpos_propid ≠ 0 → (level ≤ 0 ∨ level > drmkms.shared.plane_index_count) →
      drmkmsPlaneSetLevel errno2result drmkms data level err errno
        = ⟨data, [], DFBResult.DFB_INVARG⟩) ∧
    ((level ≤ 0 ∨ level > drmkms.shared.plane_index_count) →
      (drmkmsPlaneSetLevel errno2result drmkms data level err errno).data = data ∧
      (drmkmsPlaneSetLevel errno2result drmkms data level err errno).effects = [] ∧
      ((drmkmsPlaneSetLevel errno2result drmkms data level err errno).ret
          = DFBResult.DFB_INVARG ∨
        (drmkmsPlaneSetLevel errno2result drmkms data level err errno).ret
          = DFBResult.DFB_UNSUPPORTED)) := by
  refine ⟨?_, ?_, ?_⟩
  · intro hz
    simp [drmkmsPlaneSetLevel, hz]
  · intro hz hl
    have hl2 : level < 1 ∨ level > drmkms.shared.plane_index_count := by omega
    simp [drmkmsPlaneSetLevel, hz, hl2]
  · intro hl
    have hl2 : level < 1 ∨ level > drmkms.shared.plane_index_count := by omega
    by_cases hz : data.zpos_propid = 0 <;> simp [drmkmsPlaneSetLevel, hz, hl2]

/-- C10 at concrete inputs: level 0 and level 3 on a plane with the z-order
property among two planes, and level 1 on a plane without it. -/
theorem plane_set_level_bounds_witness :
    drmkmsPlaneSetLevel sampleErrno2result sampleDevice idleLayer 0 0 0
      = ⟨idleLayer, [], DFBResult.DFB_INVARG⟩ ∧
    drmkmsPlaneSetLevel sampleErrno2result sampleDevice idleLayer 3 0 0
      = ⟨idleLayer, [], DFBResult.DFB_INVARG⟩ ∧
    drmkmsPlaneSetLevel sampleErrno2result sampleDevice noZposLayer 1 0 0
      = ⟨noZposLayer, [], DFBResult.DFB_UNSUPPORTED⟩ :=
  ⟨(plane_set_level_bounds sampleErrno2result sampleDevice idleLayer 0 0 0).2.1 (by decide)
      (Or.inl (by decide)),
   (plane_set_level_bounds sampleErrno2result sampleDevice idleLayer 3 0 0).2.1 (by decide)
      (Or.inr (by decide)),
   (plane_set_level_bounds sampleErrno2result sampleDevice noZposLayer 1 0 0).1 rfl⟩

/-! ## Invariants of the life of one layer -/

/-- Induction over a sequence of steps: a property of worlds that every
admissible step preserves holds after every admissible sequence. -/
theorem run_induction (errno2result : Int → DFBResult) (drmkms : DRMKMSData)
    (Q : Step → Prop) (P : World → Prop)
    (hstep : ∀ s w w1, Q s → P w → step errno2result drmkms s w = some w1 → P w1) :
    ∀ (steps : List Step) (w w1 : World), (∀ s ∈ steps, Q s) → P w →
      run errno2result drmkms steps w = some w1 → P w1 := by
  intro steps
  induction steps with
  | nil =>
    intro w w1 _ hP h
    simp only [run, Option.some.injEq] at h
    exact h ▸ hP
  | cons s ss ih =>
    intro w w1 hQ hP h
    simp only [run] at h
    cases hs : step errno2result drmkms s w with
    | none => simp [hs] at h
    | some w2 =>
      simp only [hs] at h
      exact ih w2 w1 (fun t ht => hQ t (List.mem_cons_of_mem _ ht))
        (hstep s w w2 (hQ s (List.mem_cons_self _ _)) hP hs) h

/-- What one step does to the world: an event runs the handler; a submit either
changes nothing (degenerate geometry on a plane) or has the shape of a submit. -/
theorem step_cases (errno2result : Int → DFBResult) (drmkms : DRMKMSData) (s : Step)
    (w w1 : World) (h : step errno2result drmkms s w = some w1) :
    (s = Step.event ∧ w1 = ⟨(drmkms_page_flip_handler w.data).1,
        w.trace ++ (drmkms_page_flip_handler w.data).2⟩) ∨
    (w1 = ⟨w.data, w.trace ++ []⟩) ∨
    (∃ surface flags left_lock flip env out,
      (s = Step.primary surface flags left_lock flip env ∨
       s = Step.plane surface flags left_lock flip env) ∧
      SubmitShape w.data env.prev_waits surface left_lock.buffer_index out ∧
      w1 = ⟨out.data, w.trace ++ out.effects⟩) := by
  cases s with
  | primary surface flags left_lock flip env =>
    simp only [step] at h
    cases ho : drmkmsPrimaryUpdateFlipRegion errno2result drmkms w.data surface flags left_lock
        flip env with
    | none => simp [ho] at h
    | some out =>
      simp only [ho, Option.some.injEq] at h
      exact Or.inr (Or.inr ⟨surface, flags, left_lock, flip, env, out, Or.inl rfl,
        primary_shape _ _ _ _ _ _ _ _ _ ho, h.symm⟩)
  | plane surface flags left_lock flip env =>
    simp only [step] at h
    cases ho : drmkmsPlaneUpdateFlipRegion errno2result drmkms w.data surface flags left_lock
        flip env with
    | none => simp [ho] at h
    | some out =>
      simp only [ho, Option.some.injEq] at h
      rcases plane_shape _ _ _ _ _ _ _ _ _ ho with rfl | hs
      · exact Or.inr (Or.inl h.symm)
      · exact Or.inr (Or.inr ⟨surface, flags, left_lock, flip, env, out, Or.inr rfl, hs,
          h.symm⟩)
  | event =>
    simp only [step, Option.some.injEq] at h
    exact Or.inl ⟨rfl, h.symm⟩

/-- C4, as stated, fails: after one submit of surface 5 and its completion
event, `flip_pending` is false while the slot `surface` still holds 5. -/
theorem surface_slot_kept_after_completion :
    (run sampleErrno2result sampleDevice
        [Step.primary 5 0 sampleLock true okEnv, Step.event] ⟨idleLayer, []⟩).map
      (fun w => (w.data.surface, w.data.flip_pending)) = some (5, false) := by
  decide

/-- C4, amended. In every state reached from a state that satisfies it by
submits of non-null surfaces and by completion events, `flip_pending = true`
implies that the slot `surface` is not `NULL`.  (The converse does not hold:
the handler clears `flip_pending` and leaves `surface` as it is.) -/
theorem pending_implies_surface_recorded (errno2result : Int → DFBResult)
    (drmkms : DRMKMSData) (steps : List Step) (w w1 : World)
    (hvalid : ∀ s ∈ steps, s.surfaceValid)
    (hinit : w.data.flip_pending = true → w.data.surface ≠ 0)
    (hrun : run errno2result drmkms steps w = some w1) :
    w1.data.flip_pending = true → w1.data.surface ≠ 0 := by
  refine run_induction errno2result drmkms Step.surfaceValid
    (fun w => w.data.flip_pending = true → w.data.surface ≠ 0) ?_ steps w w1 hvalid hinit hrun
  intro s w w1 hQ hP h
  rcases step_cases _ _ _ _ _ h with ⟨-, rfl⟩ | rfl | ⟨surface, flags, left_lock, flip, env,
    out, hs, ⟨d1, e1, hw, e5, -, hrel, -, -, -⟩, rfl⟩
  · intro hp
    simp [drmkms_page_flip_handler] at hp
  · exact hP
  · have hsurf : surface ≠ 0 := by
      rcases hs with rfl | rfl <;> exact hQ
    rcases hrel.data_eq with hd | ⟨-, hd⟩
    · intro _
      show out.data.surface ≠ 0
      rw [hd]
      exact hsurf
    · intro hp
      change out.data.flip_pending = true at hp
      rw [hd] at hp
      simp at hp

/-- C4, amended, at a concrete run: two submits, the second after a timed-out
wait, from the idle layer. -/
theorem pending_implies_surface_recorded_witness :
    run sampleErrno2result sampleDevice overrunSteps ⟨idleLayer, []⟩ = some overrunWorld ∧
    (overrunWorld.data.flip_pending = true → overrunWorld.data.surface ≠ 0) :=
  ⟨rfl, pending_implies_surface_recorded sampleErrno2result sampleDevice overrunSteps
    ⟨idleLayer, []⟩ overrunWorld (by simp [overrunSteps, Step.surfaceValid]) (by decide) rfl⟩

theorem held_ref_submitCalls (surface : Nat) (hw : List Effect)
    (h : ∀ x ∈ hw, x.isSubmitCall = true) : held (Effect.dfb_surface_ref surface :: hw) = 1 := by
  have hr := refs_submitCalls hw h
  have hu := unrefs_submitCalls hw h
  unfold refs at hr
  unfold unrefs at hu
  simp [held, refs, unrefs, List.filterMap_cons, Effect.refOf, Effect.unrefOf, hr, hu]

theorem heldOn_ref_submitCalls (s surface : Nat) (hw : List Effect)
    (h : ∀ x ∈ hw, x.isSubmitCall = true) :
    heldOn s (Effect.dfb_surface_ref surface :: hw) = if surface = s then 1 else 0 := by
  have hr := refs_submitCalls hw h
  have hu := unrefs_submitCalls hw h
  unfold refs at hr
  unfold unrefs at hu
  by_cases hs : surface = s
  · simp [heldOn, refs, unrefs, List.filterMap_cons, Effect.refOf, Effect.unrefOf, hr, hu, hs]
  · have hc : List.count s [surface] = 0 :=
      List.count_eq_zero.mpr (by simpa using fun h => hs h.symm)
    simp [heldOn, refs, unrefs, List.filterMap_cons, Effect.refOf, Effect.unrefOf, hr, hu, hs,
      hc]

/-- The reference accounting of the event handler. -/
theorem handler_held (data : DRMKMSLayerData) (s : Nat) :
    held (drmkms_page_flip_handler data).2 + (pendingCount data : Int) = 0 ∧
    heldOn s (drmkms_page_flip_handler data).2 + (pendingOn s data : Int) = 0 ∧
    pendingCount (drmkms_page_flip_handler data).1 = 0 ∧
    pendingOn s (drmkms_page_flip_handler data).1 = 0 := by
  cases hp : data.flip_pending
  · simp [drmkms_page_flip_handler, hp, held, heldOn, refs, unrefs, Effect.refOf,
      Effect.unrefOf, pendingCount, pendingOn]
  · by_cases hs : data.surface = s
    · simp [drmkms_page_flip_handler, hp, held, heldOn, refs, unrefs, Effect.refOf,
        Effect.unrefOf, pendingCount, pendingOn, hs]
    · have hc : List.count s [data.surface] = 0 :=
        List.count_eq_zero.mpr (by simpa using fun h => hs h.symm)
      simp [drmkms_page_flip_handler, hp, held, heldOn, refs, unrefs, Effect.refOf,
        Effect.unrefOf, pendingCount, pendingOn, hs, hc]

/-- The reference accounting of a submit that starts after the previous flip
has completed. -/
theorem SubmitShape.balance {data : DRMKMSLayerData} {prev : List WaitOutcome} {surface : Nat}
    {index : Int} {out : Outcome} (h : SubmitShape data prev surface index out)
    (hprev : ∀ w ∈ prev, w.timed_out = true → w.event = true) (s : Nat) :
    held out.effects + (pendingCount data : Int) = (pendingCount out.data : Int) ∧
    heldOn s out.effects + (pendingOn s data : Int) = (pendingOn s out.data : Int) := by
  obtain ⟨d1, e1, hw, e5, h1, hrel, heff, hcalls, -⟩ := h
  have hd1 := waitPendingFlip_complete _ _ _ _ hprev h1
  have hrel1 := waitPendingFlip_rel _ _ _ _ h1
  have a1 := hrel1.held_eq
  have a2 := hrel1.heldOn_eq s
  have b1 := hrel.held_eq
  have b2 := hrel.heldOn_eq s
  have c1 := held_ref_submitCalls surface hw hcalls
  have c2 := heldOn_ref_submitCalls s surface hw hcalls
  have p1 : pendingCount d1 = 0 := by simp [pendingCount, hd1]
  have p2 : pendingOn s d1 = 0 := by simp [pendingOn, hd1]
  have q1 : pendingCount { d1 with surface := surface, surfacebuffer_index := index,
                                   flip_pending := true } = 1 := by simp [pendingCount]
  have q2 : (pendingOn s { d1 with surface := surface, surfacebuffer_index := index,
                                   flip_pending := true } : Int)
      = if surface = s then 1 else 0 := by
    by_cases hs : surface = s <;> simp [pendingOn, hs]
  rw [heff, held_append, held_append, heldOn_append, heldOn_append, c1, c2]
  rw [p1] at a1
  rw [p2] at a2
  rw [q1] at b1
  rw [q2] at b2
  push_cast at a1 a2 b1 b2 ⊢
  constructor <;> linarith

/-- C5, as stated, fails: when the wait for the previous flip times out, the
second submit takes a second reference while the first is still held, so two
references are taken and none released with `flip_pending = true`; and after
the one completion event that follows, the first surface has still one
reference that nothing will release. -/
theorem reference_leaked_on_overrun :
    (run sampleErrno2result sampleDevice overrunSteps ⟨idleLayer, []⟩).map
      (fun w => (w.data.flip_pending, held w.trace)) = some (true, 2) ∧
    (run sampleErrno2result sampleDevice (overrunSteps ++ [Step.event]) ⟨idleLayer, []⟩).map
      (fun w => (w.data.flip_pending, held w.trace, heldOn 5 w.trace, heldOn 6 w.trace))
      = some (false, 1, 1, 0) := by
  decide

/-- C5, amended. Start idle with no reference accounted for, and take any
sequence of submits and completion events in which no wait for the previous
flip times out with the flip still pending (the hardware call and the waits of
each submit being otherwise arbitrary).  Then at every point the references
taken minus the references released is 1 when `flip_pending` is true and 0 when
it is false, and the same holds surface by surface: the one reference held is
on the recorded surface. -/
theorem reference_balance (errno2result : Int → DFBResult) (drmkms : DRMKMSData)
    (steps : List Step) (data : DRMKMSLayerData) (w1 : World)
    (hclean : ∀ s ∈ steps, s.prevWaitsComplete)
    (hidle : data.flip_pending = false)
    (hrun : run errno2result drmkms steps ⟨data, []⟩ = some w1) :
    held w1.trace = (if w1.data.flip_pending = true then 1 else 0) ∧
    ∀ s, heldOn s w1.trace
      = (if w1.data.flip_pending = true ∧ w1.data.surface = s then 1 else 0) := by
  have key : held w1.trace = (pendingCount w1.data : Int) ∧
      ∀ s, heldOn s w1.trace = (pendingOn s w1.data : Int) := by
    refine run_induction errno2result drmkms Step.prevWaitsComplete
      (fun w => held w.trace = (pendingCount w.data : Int) ∧
        ∀ s, heldOn s w.trace = (pendingOn s w.data : Int)) ?_ steps ⟨data, []⟩ w1 hclean ?_ hrun
    · intro s w w1 hQ hP h
      rcases step_cases _ _ _ _ _ h with ⟨-, rfl⟩ | rfl | ⟨surface, flags, left_lock, flip, env,
        out, hs, hshape, rfl⟩
      · refine ⟨?_, fun s => ?_⟩
        · have := handler_held w.data 0
          simp only [held_append, this.2.2.1]
          have h1 := hP.1
          push_cast
          linarith [this.1]
        · have := handler_held w.data s
          simp only [heldOn_append, this.2.2.2]
          have h1 := hP.2 s
          push_cast
          linarith [this.2.1]
      · simpa using hP
      · have hprev : ∀ v ∈ env.prev_waits, v.timed_out = true → v.event = true := by
          rcases hs with rfl | rfl <;> exact hQ
        refine ⟨?_, fun s => ?_⟩
        · have := (hshape.balance hprev 0).1
          simp only [held_append]
          linarith [hP.1]
        · have := (hshape.balance hprev s).2
          simp only [heldOn_append]
          linarith [hP.2 s]
    · simp [held, heldOn, refs, unrefs, pendingCount, pendingOn, hidle]
  refine ⟨?_, fun s => ?_⟩
  · rw [key.1]
    cases hp : w1.data.flip_pending <;> simp [pendingCount, hp]
  · rw [key.2 s]
    by_cases hc : w1.data.flip_pending = true ∧ w1.data.surface = s <;> simp [pendingOn, hc]

/-- C5, amended, at a concrete run without overrun, which includes a
`DSFLIP_WAITFORSYNC` wait and a failed `drmModePageFlip`. -/
theorem reference_balance_witness :
    run sampleErrno2result sampleDevice orderlySteps ⟨idleLayer, []⟩ = some orderlyWorld ∧
    held orderlyWorld.trace = (if orderlyWorld.data.flip_pending = true then 1 else 0) ∧
    heldOn 5 orderlyWorld.trace
      = (if orderlyWorld.data.flip_pending = true ∧ orderlyWorld.data.surface = 5 then 1
         else 0) ∧
    heldOn 6 orderlyWorld.trace
      = (if orderlyWorld.data.flip_pending = true ∧ orderlyWorld.data.surface = 6 then 1
         else 0) :=
  have h := reference_balance sampleErrno2result sampleDevice orderlySteps idleLayer
    orderlyWorld (by simp [orderlySteps, Step.prevWaitsComplete, okEnv, failEnv]) rfl
    (by decide)
  ⟨by decide, h.1, h.2 5, h.2 6⟩

theorem outstandingFrom_handler (data : DRMKMSLayerData) (n : Nat) :
    outstandingFrom n (drmkms_page_flip_handler data).2 = n - 1 := by
  cases hp : data.flip_pending <;>
    simp [drmkms_page_flip_handler, hp, outstandingFrom, Effect.outstandingAfter]

/-- The tracked submissions outstanding after a submit that starts after the
previous flip has completed. -/
theorem SubmitShape.outstanding_bound {data : DRMKMSLayerData} {prev : List WaitOutcome}
    {surface : Nat} {index : Int} {out : Outcome} (h : SubmitShape data prev surface index out)
    (hprev : ∀ w ∈ prev, w.timed_out = true → w.event = true) (n : Nat)
    (hn : n ≤ pendingCount data) :
    outstandingFrom n out.effects ≤ pendingCount out.data ∧ peakFrom n out.effects ≤ 1 := by
  obtain ⟨d1, e1, hw, e5, h1, hrel, heff, -, hout⟩ := h
  have hd1 := waitPendingFlip_complete _ _ _ _ hprev h1
  have hrel1 := waitPendingFlip_rel _ _ _ _ h1
  have a := hrel1.outstanding_le n hn
  have p1 : pendingCount d1 = 0 := by simp [pendingCount, hd1]
  rw [p1] at a
  have a0 : outstandingFrom n e1 = 0 := by omega
  have hn1 : n ≤ 1 := by
    unfold pendingCount at hn
    split at hn <;> omega
  have hb := hout 0
  have hb2 := Nat.le_trans (outstandingFrom_le_peakFrom hw 0) hb
  have hc : outstandingFrom 0 (Effect.dfb_surface_ref surface :: hw) = outstandingFrom 0 hw := by
    simp [outstandingFrom, Effect.outstandingAfter]
  have hc2 : peakFrom 0 (Effect.dfb_surface_ref surface :: hw) = peakFrom 0 hw := by
    simp [peakFrom, Effect.outstandingAfter]
  constructor
  · rw [heff, outstandingFrom_append, outstandingFrom_append, a0]
    apply hrel.outstanding_le
    rw [hc]
    simpa [pendingCount] using hb2
  · rw [heff, peakFrom_append, peakFrom_append, hrel1.peak_eq, hrel.peak_eq,
      outstandingFrom_append, a0, hc, hc2]
    simp only [Nat.max_le]
    omega

/-- C6, as stated, fails: when the wait for the previous flip times out, the
second submit issues its tracked page flip while `flip_pending` of the first
is still true and its event has not arrived: two tracked submissions accepted
by the hardware are outstanding. -/
theorem two_outstanding_on_overrun :
    (run sampleErrno2result sampleDevice overrunSteps ⟨idleLayer, []⟩).map
      (fun w => (w.data.flip_pending, outstandingFrom 0 w.trace, notifications w.trace))
      = some (true, 2, []) := by
  decide

/-- C6, amended. Start with nothing outstanding, and take any sequence of
submits and completion events in which no wait for the previous flip times out
with the flip still pending.  Then at every instant, that is after every
initial segment of the effects, the number of tracked submissions accepted by
the hardware and not yet completed by an event is at most 1, and at the end it
is 0 when `flip_pending` is false. -/
theorem at_most_one_outstanding (errno2result : Int → DFBResult) (drmkms : DRMKMSData)
    (steps : List Step) (data : DRMKMSLayerData) (w1 : World)
    (hclean : ∀ s ∈ steps, s.prevWaitsComplete)
    (hrun : run errno2result drmkms steps ⟨data, []⟩ = some w1) :
    (∀ k, outstandingFrom 0 (w1.trace.take k) ≤ 1) ∧
    (w1.data.flip_pending = false → outstandingFrom 0 w1.trace = 0) := by
  have key : outstandingFrom 0 w1.trace ≤ pendingCount w1.data ∧ peakFrom 0 w1.trace ≤ 1 := by
    refine run_induction errno2result drmkms Step.prevWaitsComplete
      (fun w => outstandingFrom 0 w.trace ≤ pendingCount w.data ∧ peakFrom 0 w.trace ≤ 1) ?_
      steps ⟨data, []⟩ w1 hclean ?_ hrun
    · intro s w w1 hQ hP h
      have hle : pendingCount w.data ≤ 1 := by
        unfold pendingCount
        split <;> omega
      rcases step_cases _ _ _ _ _ h with ⟨-, rfl⟩ | rfl | ⟨surface, flags, left_lock, flip, env,
        out, hs, hshape, rfl⟩
      · have h0 : pendingCount (drmkms_page_flip_handler w.data).1 = 0 := by
          simp [pendingCount, drmkms_page_flip_handler]
        constructor
        · show outstandingFrom 0 (w.trace ++ _) ≤ _
          rw [outstandingFrom_append, outstandingFrom_handler, h0]
          omega
        · show peakFrom 0 (w.trace ++ _) ≤ 1
          rw [peakFrom_append, peakFrom_handler]
          simp only [Nat.max_le]
          omega
      · simpa using hP
      · have hprev : ∀ v ∈ env.prev_waits, v.timed_out = true → v.event = true := by
          rcases hs with rfl | rfl <;> exact hQ
        have hb := hshape.outstanding_bound hprev _ hP.1
        constructor
        · show outstandingFrom 0 (w.trace ++ _) ≤ _
          rw [outstandingFrom_append]
          exact hb.1
        · show peakFrom 0 (w.trace ++ _) ≤ 1
          rw [peakFrom_append]
          simp only [Nat.max_le]
          exact ⟨hP.2, hb.2⟩
    · simp [outstandingFrom, peakFrom]
  constructor
  · intro k
    exact Nat.le_trans (outstandingFrom_take_le_peakFrom _ _ _) key.2
  · intro hp
    have : pendingCount w1.data = 0 := by simp [pendingCount, hp]
    have := key.1
    omega

/-- C6, amended, at a concrete run without overrun: after the whole run and
after its first 8 effects (the second submit has been accepted and is
waiting). -/
theorem at_most_one_outstanding_witness :
    run sampleErrno2result sampleDevice orderlySteps ⟨idleLayer, []⟩ = some orderlyWorld ∧
    outstandingFrom 0 (orderlyWorld.trace.take 16) ≤ 1 ∧
    outstandingFrom 0 (orderlyWorld.trace.take 8) ≤ 1 :=
  have h := at_most_one_outstanding sampleErrno2result sampleDevice orderlySteps idleLayer
    orderlyWorld (by simp [orderlySteps, Step.prevWaitsComplete, okEnv, failEnv])
    (by decide)
  ⟨by decide, h.1 16, h.1 8⟩

/-! ## Successful submits -/

/-- Without an event during its waits, the wait loop leaves the data as it is. -/
theorem waitPendingFlip_no_event (ws : List WaitOutcome) :
    ∀ (data d : DRMKMSLayerData) (e : List Effect), (∀ w ∈ ws, w.event = false) →
      waitPendingFlip ws data = some (d, e) → d = data := by
  induction ws with
  | nil =>
    intro data d e _ h
    cases hp : data.flip_pending <;> simp [waitPendingFlip, hp] at h
    exact h.1.symm
  | cons w ws ih =>
    intro data d e hne h
    have he := hne w (List.mem_cons_self _ _)
    cases hp : data.flip_pending
    · simp [waitPendingFlip, hp] at h
      exact h.1.symm
    · cases ht : w.timed_out <;>
        simp [waitPendingFlip, hp, ht, he, direct_waitqueue_wait_timeout] at h
      · cases hr : waitPendingFlip ws data with
        | none => simp [hr] at h
        | some r =>
          obtain ⟨d1, e1⟩ := r
          simp [hr] at h
          obtain ⟨rfl, -⟩ := h
          exact ih data d1 e1 (fun v hv => hne v (List.mem_cons_of_mem _ hv)) hr
      · exact h.1.symm

/-- The result of `drmkmsPrimaryUpdateFlipRegion` when `drmModePageFlip`
succeeds and the waits end. -/
theorem primary_success (errno2result : Int → DFBResult) (drmkms : DRMKMSData)
    (data : DRMKMSLayerData) (surface flags : Nat) (left_lock : CoreSurfaceBufferLock)
    (flip : Bool) (env : SubmitEnv) (herr : env.err = 0)
    (hprev : data.flip_pending = true → resolves env.prev_waits = true)
    (hsync : flags &&& DSFLIP_WAITFORSYNC = DSFLIP_WAITFORSYNC →
      resolves env.sync_waits = true) :
    ∃ d1 e1 d3 e5, waitPendingFlip env.prev_waits data = some (d1, e1) ∧
      WaitRel { d1 with surface := surface, surfacebuffer_index := left_lock.buffer_index,
                        flip_pending := true } d3 e5 ∧
      ((∀ w ∈ env.sync_waits, w.event = false) →
        d3 = { d1 with surface := surface, surfacebuffer_index := left_lock.buffer_index,
                       flip_pending := true }) ∧
      drmkmsPrimaryUpdateFlipRegion errno2result drmkms data surface flags left_lock flip env
        = some ⟨d3, e1 ++ [Effect.dfb_surface_ref surface,
            Effect.drmModePageFlip (drmkms.encoder_crtc_id d1.primary_index) left_lock.handle
              DRM_MODE_PAGE_FLIP_EVENT true 0] ++
            (if drmkms.shared.mirror_outputs then
               mirrorFlips drmkms left_lock env.mirror_err else []) ++
            (if flip then [Effect.dfb_surface_flip surface false] else []) ++ e5,
          DFBResult.DFB_OK⟩ := by
  obtain ⟨⟨d1, e1⟩, h1⟩ := waitPendingFlip_returns env.prev_waits data hprev
  by_cases hs : flags &&& DSFLIP_WAITFORSYNC = DSFLIP_WAITFORSYNC
  · obtain ⟨⟨d3, e5⟩, h2⟩ := waitPendingFlip_returns env.sync_waits
      { d1 with surface := surface, surfacebuffer_index := left_lock.buffer_index,
                flip_pending := true } (fun _ => hsync hs)
    refine ⟨d1, e1, d3, e5, h1, waitPendingFlip_rel _ _ _ _ h2,
      fun hne => waitPendingFlip_no_event _ _ _ _ hne h2, ?_⟩
    simp [drmkmsPrimaryUpdateFlipRegion, h1, herr, hs, h2]
  · refine ⟨d1, e1, _, [], h1, WaitRel.refl _, fun _ => rfl, ?_⟩
    simp [drmkmsPrimaryUpdateFlipRegion, h1, herr, hs]

/-- The result of `drmkmsPlaneUpdateFlipRegion` on a non-degenerate geometry
when `drmModeSetPlane` succeeds or is not called, and the waits end. -/
theorem plane_success (errno2result : Int → DFBResult) (drmkms : DRMKMSData)
    (data : DRMKMSLayerData) (surface flags : Nat) (left_lock : CoreSurfaceBufferLock)
    (flip : Bool) (env : SubmitEnv)
    (hgeo : ¬ (data.config.source.w = 0 ∨ data.config.source.h = 0 ∨
               data.config.dest.w = 0 ∨ data.config.dest.h = 0))
    (herr : data.muted = true ∨ env.err = 0)
    (hprev : data.flip_pending = true → resolves env.prev_waits = true)
    (hsync : flags &&& DSFLIP_WAITFORSYNC = DSFLIP_WAITFORSYNC →
      resolves env.sync_waits = true) :
    ∃ d1 e1 d3 e5, waitPendingFlip env.prev_waits data = some (d1, e1) ∧
      WaitRel { d1 with surface := surface, surfacebuffer_index := left_lock.buffer_index,
                        flip_pending := true } d3 e5 ∧
      ((∀ w ∈ env.sync_waits, w.event = false) →
        d3 = { d1 with surface := surface, surfacebuffer_index := left_lock.buffer_index,
                       flip_pending := true }) ∧
      drmkmsPlaneUpdateFlipRegion errno2result drmkms data surface flags left_lock flip env
        = some ⟨d3, e1 ++ [Effect.dfb_surface_ref surface] ++
            (if data.muted then [] else
              [Effect.drmModeSetPlane data.plane_id (drmkms.encoder_crtc_id 0) left_lock.handle
                0 data.config.dest (fixed16 data.config.source) 0]) ++
            (if flip then [Effect.dfb_surface_flip surface false] else []) ++
            [Effect.drmWaitVBlank (DRM_VBLANK_EVENT ||| DRM_VBLANK_RELATIVE) 1 true
              env.vblank_err] ++ e5,
          DFBResult.DFB_OK⟩ := by
  obtain ⟨⟨d1, e1⟩, h1⟩ := waitPendingFlip_returns env.prev_waits data hprev
  have hm : d1.muted = data.muted ∧ d1.plane_id = data.plane_id := by
    rcases (waitPendingFlip_rel _ _ _ _ h1).data_eq with rfl | ⟨-, rfl⟩ <;> exact ⟨rfl, rfl⟩
  have hnf : ¬ (d1.muted = false ∧ env.err ≠ 0) := by
    rw [hm.1]
    rcases herr with h | h
    · simp [h]
    · simp [h]
  have he : (if d1.muted = true then [] else
        [Effect.drmModeSetPlane d1.plane_id (drmkms.encoder_crtc_id 0) left_lock.handle 0
          data.config.dest (fixed16 data.config.source) env.err])
      = (if data.muted = true then [] else
        [Effect.drmModeSetPlane data.plane_id (drmkms.encoder_crtc_id 0) left_lock.handle 0
          data.config.dest (fixed16 data.config.source) 0]) := by
    rw [hm.1, hm.2]
    rcases herr with h | h
    · simp [h]
    · simp [h]
  by_cases hs : flags &&& DSFLIP_WAITFORSYNC = DSFLIP_WAITFORSYNC
  · obtain ⟨⟨d3, e5⟩, h2⟩ := waitPendingFlip_returns env.sync_waits
      { d1 with surface := surface, surfacebuffer_index := left_lock.buffer_index,
                flip_pending := true } (fun _ => hsync hs)
    refine ⟨d1, e1, d3, e5, h1, waitPendingFlip_rel _ _ _ _ h2,
      fun hne => waitPendingFlip_no_event _ _ _ _ hne h2, ?_⟩
    unfold drmkmsPlaneUpdateFlipRegion
    simp only [hgeo, if_false, h1, hnf, hs, if_true, h2, he]
  · refine ⟨d1, e1, _, [], h1, WaitRel.refl _, fun _ => rfl, ?_⟩
    unfold drmkmsPlaneUpdateFlipRegion
    simp only [hgeo, if_false, h1, hnf, hs, he]
    simp

/-- C7. Timeouts never fail a submit.  Whatever the outcomes of the waits (the
wait for the previous flip and the `DSFLIP_WAITFORSYNC` wait may each time out
or not, as long as each loop ends), a primary submit whose `drmModePageFlip`
succeeds, and a plane submit with non-degenerate geometry whose
`drmModeSetPlane` succeeds (or is skipped on a muted plane), returns `DFB_OK`;
the submission has proceeded: the surface and the buffer index are recorded, a
reference on the surface was taken, the hardware call was issued, and
`flip_pending` is true on return unless the event arrived during the
`DSFLIP_WAITFORSYNC` wait. -/
theorem submit_ok_despite_timeouts (errno2result : Int → DFBResult) (drmkms : DRMKMSData)
    (data : DRMKMSLayerData) (surface flags : Nat) (left_lock : CoreSurfaceBufferLock)
    (flip : Bool) (env : SubmitEnv)
    (hprev : data.flip_pending = true → resolves env.prev_waits = true)
    (hsync : flags &&& DSFLIP_WAITFORSYNC = DSFLIP_WAITFORSYNC →
      resolves env.sync_waits = true) :
    (env.err = 0 →
      ∃ out, drmkmsPrimaryUpdateFlipRegion errno2result drmkms data surface flags left_lock
          flip env = some out ∧
        out.ret = DFBResult.DFB_OK ∧
        out.data.surface = surface ∧ out.data.surfacebuffer_index = left_lock.buffer_index ∧
        Effect.dfb_surface_ref surface ∈ out.effects ∧
        Effect.drmModePageFlip (drmkms.encoder_crtc_id data.primary_index) left_lock.handle
          DRM_MODE_PAGE_FLIP_EVENT true 0 ∈ out.effects ∧
        ((∀ w ∈ env.sync_waits, w.event = false) → out.data.flip_pending = true)) ∧
    (¬ (data.config.source.w = 0 ∨ data.config.source.h = 0 ∨
        data.config.dest.w = 0 ∨ data.config.dest.h = 0) →
      (data.muted = true ∨ env.err = 0) →
      ∃ out, drmkmsPlaneUpdateFlipRegion errno2result drmkms data surface flags left_lock
          flip env = some out ∧
        out.ret = DFBResult.DFB_OK ∧
        out.data.surface = surface ∧ out.data.surfacebuffer_index = left_lock.buffer_index ∧
        Effect.dfb_surface_ref surface ∈ out.effects ∧
        (data.muted = false →
          Effect.drmModeSetPlane data.plane_id (drmkms.encoder_crtc_id 0) left_lock.handle 0
            data.config.dest (fixed16 data.config.source) 0 ∈ out.effects) ∧
        Effect.drmWaitVBlank (DRM_VBLANK_EVENT ||| DRM_VBLANK_RELATIVE) 1 true env.vblank_err
          ∈ out.effects ∧
        ((∀ w ∈ env.sync_waits, w.event = false) → out.data.flip_pending = true)) := by
  constructor
  · intro herr
    obtain ⟨d1, e1, d3, e5, h1, hrel, hne, hres⟩ :=
      primary_success errno2result drmkms data surface flags left_lock flip env herr hprev hsync
    have hidx : d1.primary_index = data.primary_index := by
      rcases (waitPendingFlip_rel _ _ _ _ h1).data_eq with rfl | ⟨-, rfl⟩ <;> rfl
    refine ⟨_, hres, rfl, ?_, ?_, ?_, ?_, ?_⟩
    · rcases hrel.data_eq with h | ⟨-, h⟩ <;> simp [h]
    · rcases hrel.data_eq with h | ⟨-, h⟩ <;> simp [h]
    · simp
    · simp [hidx]
    · intro hn
      simp [hne hn]
  · intro hgeo herr
    obtain ⟨d1, e1, d3, e5, h1, hrel, hne, hres⟩ :=
      plane_success errno2result drmkms data surface flags left_lock flip env hgeo herr hprev
        hsync
    refine ⟨_, hres, rfl, ?_, ?_, ?_, ?_, ?_, ?_⟩
    · rcases hrel.data_eq with h | ⟨-, h⟩ <;> simp [h]
    · rcases hrel.data_eq with h | ⟨-, h⟩ <;> simp [h]
    · simp
    · intro hm
      simp [hm]
    · simp
    · intro hn
      simp [hne hn]

/-- C7 at concrete inputs: a flip of surface 5 is pending and no event ever
arrives, so that both the wait for the previous flip and the
`DSFLIP_WAITFORSYNC` wait time out; the primary and the plane submit of surface
6 return `DFB_OK` all the same, with the new flip recorded as pending. -/
theorem submit_ok_despite_timeouts_witness :
    (drmkmsPrimaryUpdateFlipRegion sampleErrno2result sampleDevice pendingLayer 6
        DSFLIP_WAITFORSYNC sampleLock true timeoutEnv).map
      (fun out => (out.ret, out.data.surface, out.data.flip_pending))
      = some (DFBResult.DFB_OK, 6, true) ∧
    (drmkmsPlaneUpdateFlipRegion sampleErrno2result sampleDevice pendingLayer 6
        DSFLIP_WAITFORSYNC sampleLock true timeoutEnv).map
      (fun out => (out.ret, out.data.surface, out.data.flip_pending))
      = some (DFBResult.DFB_OK, 6, true) := by
  have h := submit_ok_despite_timeouts sampleErrno2result sampleDevice pendingLayer 6
    DSFLIP_WAITFORSYNC sampleLock true timeoutEnv (by decide) (by decide)
  obtain ⟨o1, h1, r1, s1, -, -, -, p1⟩ := h.1 rfl
  obtain ⟨o2, h2, r2, s2, -, -, -, -, p2⟩ := h.2 (by decide) (Or.inr rfl)
  rw [h1, h2]
  simp [r1, s1, r2, s2, p1 (by decide), p2 (by decide)]

/-! ## Mirror fan-out -/

/-- C11. Round trip of `drmkmsPlaneSetLevel` and `drmkmsPlaneGetLevel`.  On a
plane with the `zpos` property and for a level between 1 and
`plane_index_count`: when `drmModeObjectSetProperty` succeeds, the set returns
`DFB_OK` after that one hardware call and a following get returns `DFB_OK` and
stores exactly that level; when it fails, the set returns the translation of
`errno` and a following get still stores the previous level.  On any layer data
and with any pointer, the get returns `DFB_OK`, issues no call at all and
leaves the layer data as it was. -/
theorem plane_level_round_trip (errno2result : Int → DFBResult) (drmkms : DRMKMSData)
    (data : DRMKMSLayerData) (level err errno : Int) (v : Int)
    (d : DRMKMSLayerData) (p : Option Int)
    (hz : data.zpos_propid ≠ 0) (h1 : 1 ≤ level)
    (h2 : level ≤ drmkms.shared.plane_index_count) :
    (err = 0 →
      (drmkmsPlaneSetLevel errno2result drmkms data level err errno).ret = DFBResult.DFB_OK ∧
      (drmkmsPlaneSetLevel errno2result drmkms data level err errno).effects
        = [Effect.drmModeObjectSetProperty data.plane_id DRM_MODE_OBJECT_PLANE data.zpos_propid
             level 0] ∧
      (drmkmsPlaneGetLevel (drmkmsPlaneSetLevel errno2result drmkms data level err errno).data
          (some v)).1.ret = DFBResult.DFB_OK ∧
      (drmkmsPlaneGetLevel (drmkmsPlaneSetLevel errno2result drmkms data level err errno).data
          (some v)).2 = some level) ∧
    (err ≠ 0 →
      (drmkmsPlaneSetLevel errno2result drmkms data level err errno).ret = errno2result errno ∧
      (drmkmsPlaneGetLevel (drmkmsPlaneSetLevel errno2result drmkms data level err errno).data
          (some v)).1.ret = DFBResult.DFB_OK ∧
      (drmkmsPlaneGetLevel (drmkmsPlaneSetLevel errno2result drmkms data level err errno).data
          (some v)).2 = some data.level) ∧
    (drmkmsPlaneGetLevel d p).1.ret = DFBResult.DFB_OK ∧
    (drmkmsPlaneGetLevel d p).1.effects = [] ∧
    (drmkmsPlaneGetLevel d p).1.data = d ∧
    (drmkmsPlaneGetLevel d none).2 = none := by
  have hr : ¬ (level < 1 ∨ level > drmkms.shared.plane_index_count) := by omega
  refine ⟨?_, ?_, rfl, rfl, rfl, rfl⟩
  · intro he
    simp [drmkmsPlaneSetLevel, drmkmsPlaneGetLevel, hz, hr, he]
  · intro he
    simp [drmkmsPlaneSetLevel, drmkmsPlaneGetLevel, hz, hr, he]

/-- C11 at concrete inputs: on a device with two planes, the plane at level 1
is set to level 2; when the property call succeeds the get reports 2, when it
fails with `errno` 13 the set returns `DFB_ACCESSDENIED` and the get
reports 1. -/
theorem plane_level_round_trip_witness :
    (drmkmsPlaneSetLevel sampleErrno2result sampleDevice idleLayer 2 0 0).ret
      = DFBResult.DFB_OK ∧
    (drmkmsPlaneGetLevel (drmkmsPlaneSetLevel sampleErrno2result sampleDevice idleLayer 2 0 0).data
      (some 0)).2 = some 2 ∧
    (drmkmsPlaneSetLevel sampleErrno2result sampleDevice idleLayer 2 (-1) 13).ret
      = DFBResult.DFB_ACCESSDENIED ∧
    (drmkmsPlaneGetLevel
      (drmkmsPlaneSetLevel sampleErrno2result sampleDevice idleLayer 2 (-1) 13).data
      (some 0)).2 = some 1 :=
  ⟨((plane_level_round_trip sampleErrno2result sampleDevice idleLayer 2 0 0 0 idleLayer none
      (by decide) (by decide) (by decide)).1 rfl).1,
   ((plane_level_round_trip sampleErrno2result sampleDevice idleLayer 2 0 0 0 idleLayer none
      (by decide) (by decide) (by decide)).1 rfl).2.2.2,
   ((plane_level_round_trip sampleErrno2result sampleDevice idleLayer 2 (-1) 13 0 idleLayer none
      (by decide) (by decide) (by decide)).2.1 (by decide)).1,
   ((plane_level_round_trip sampleErrno2result sampleDevice idleLayer 2 (-1) 13 0 idleLayer none
      (by decide) (by decide) (by decide)).2.1 (by decide)).2.2⟩

/-! ## Opacity scaling -/

/-- A value in the range of `int` is not changed by the wrap-around. -/
theorem int32_of_range (x : Int) (h1 : -2147483648 ≤ x) (h2 : x ≤ 2147483647) : int32 x = x := by
  unfold int32
  omega

/-- The alpha value of an 8-bit opacity, without wrap-around. -/
theorem alphaValue_eq (o : Nat) (h : o ≤ 255) : alphaValue o = 257 * (o : Int) := by
  unfold alphaValue
  rw [int32_of_range (65535 * (o : Int)) (by omega) (by omega),
    int32_of_range (65535 * (o : Int) + 127) (by omega) (by omega),
    Int.tdiv_eq_ediv (by omega) (by omega)]
  omega

/-- C15. Opacity scaling in `drmkmsPlaneSetRegion`.  For an 8-bit opacity `o`
from 1 to 255 the value `(65535 * o + 127) / 255`, computed on 32-bit `int`,
is `257 * o`, which is the byte `o` replicated into 16 bits; neither the product
nor the sum leaves the range of `int`, so nothing wraps; the value is strictly
increasing in `o` and 255 gives 65535.  It is the value
`drmkmsPlaneSetRegion` writes to the alpha property when the opacity is
updated on a plane having that property and the earlier calls of the update
succeed. -/
theorem opacity_scaling (o p : Nat) (errno2result : Int → DFBResult) (drmkms : DRMKMSData)
    (data : DRMKMSLayerData) (config : CoreLayerRegionConfig) (updated : Nat)
    (left_lock : CoreSurfaceBufferLock) (env : RegionEnv)
    (h1 : 1 ≤ o) (h2 : o ≤ 255) :
    alphaValue o = 257 * (o : Int) ∧
    alphaValue o = ((o <<< 8 ||| o : Nat) : Int) ∧
    alphaValue o = (65535 * (o : Int) + 127) / 255 ∧
    int32 (65535 * (o : Int)) = 65535 * (o : Int) ∧
    int32 (65535 * (o : Int) + 127) = 65535 * (o : Int) + 127 ∧
    65535 * (o : Int) + 127 ≤ 2147483647 ∧
    (o < p → p ≤ 255 → alphaValue o < alphaValue p) ∧
    alphaValue 255 = 65535 ∧
    (config.opacity = o → updated &&& CLRCF_OPACITY ≠ 0 → data.alpha_propid ≠ 0 →
      env.plane_err = 0 → env.colorkey_err = 0 →
      (drmkmsPlaneSetRegion errno2result drmkms data config updated left_lock env).effects.getLast?
        = some (Effect.drmModeObjectSetProperty data.plane_id DRM_MODE_OBJECT_PLANE
            data.alpha_propid (257 * (o : Int)) env.opacity_err)) := by
  have hv := alphaValue_eq o h2
  refine ⟨hv, ?_, ?_, int32_of_range _ (by omega) (by omega),
    int32_of_range _ (by omega) (by omega), by omega, ?_, by decide, ?_⟩
  · rw [hv]
    have : o <<< 8 ||| o = 257 * o := by
      have hor := Nat.mul_add_lt_is_or (show o < 2 ^ 8 by omega) o
      rw [Nat.shiftLeft_eq, Nat.mul_comm, ← hor]
      omega
    rw [this]
    push_cast
    rfl
  · rw [hv]
    omega
  · intro hp hp2
    rw [hv, alphaValue_eq p hp2]
    omega
  · intro hc hu ha hpe hce
    have ho : config.opacity ≠ 0 := by omega
    rw [← hv, ← hc]
    unfold drmkmsPlaneSetRegion
    simp only [hpe, hce, ne_eq, not_true_eq_false, and_false, if_false]
    split_ifs <;> simp_all

/-- C15 at concrete inputs: opacity 128 gives 32896 = 0x8080, less than the
33153 of opacity 129, and an update of the opacity to 128 on a plane with the
alpha property 9 ends with the write of 32896 to that property. -/
theorem opacity_scaling_witness :
    alphaValue 128 = 32896 ∧ alphaValue 128 < alphaValue 129 ∧
    (drmkmsPlaneSetRegion sampleErrno2result sampleDevice alphaLayer
        { sampleConfig with opacity := 128 } CLRCF_OPACITY sampleLock okRegionEnv).effects.getLast?
      = some (Effect.drmModeObjectSetProperty 31 DRM_MODE_OBJECT_PLANE 9 32896 0) :=
  ⟨(opacity_scaling 128 129 sampleErrno2result sampleDevice alphaLayer
      { sampleConfig with opacity := 128 } CLRCF_OPACITY sampleLock okRegionEnv
      (by decide) (by decide)).1,
   (opacity_scaling 128 129 sampleErrno2result sampleDevice alphaLayer
      { sampleConfig with opacity := 128 } CLRCF_OPACITY sampleLock okRegionEnv
      (by decide) (by decide)).2.2.2.2.2.2.1 (by decide) (by decide),
   (opacity_scaling 128 129 sampleErrno2result sampleDevice alphaLayer
      { sampleConfig with opacity := 128 } CLRCF_OPACITY sampleLock okRegionEnv
      (by decide) (by decide)).2.2.2.2.2.2.2.2 rfl (by decide) (by decide) rfl rfl⟩

/-! ## The range of the levels -/

/-- The loop over the properties changes neither the index nor the level. -/
theorem initProperty_foldl (zpos_err : Int) (props : List PlaneProperty) :
    ∀ acc : DRMKMSLayerData × List Effect,
      (props.foldl (initProperty zpos_err) acc).1.plane_index = acc.1.plane_index ∧
      (props.foldl (initProperty zpos_err) acc).1.level = acc.1.level := by
  induction props with
  | nil => intro acc; exact ⟨rfl, rfl⟩
  | cons p ps ih =>
    intro acc
    rw [List.foldl_cons]
    obtain ⟨h1, h2⟩ := ih (initProperty zpos_err acc p)
    rw [h1, h2]
    unfold initProperty
    split_ifs <;> exact ⟨rfl, rfl⟩

/-- What `drmkmsPlaneInitLayer` does to the counter, the index and the level. -/
theorem drmkmsPlaneInitLayer_index (drmkms : DRMKMSData) (data : DRMKMSLayerData)
    (env : InitEnv) :
    (drmkmsPlaneInitLayer drmkms data env).1.shared.plane_index_count
      = drmkms.shared.plane_index_count + 1 ∧
    (drmkmsPlaneInitLayer drmkms data env).2.data.plane_index
      = drmkms.shared.plane_index_count + 1 ∧
    (drmkmsPlaneInitLayer drmkms data env).2.data.level
      = drmkms.shared.plane_index_count + 1 ∧
    (drmkmsPlaneInitLayer drmkms data env).2.ret = DFBResult.DFB_OK := by
  unfold drmkmsPlaneInitLayer
  cases hp : env.props with
  | none => exact ⟨rfl, rfl, rfl, rfl⟩
  | some props =>
    dsimp only
    obtain ⟨h1, h2⟩ := initProperty_foldl env.zpos_err props
      ({ data with plane_index := drmkms.shared.plane_index_count + 1,
                   level := drmkms.shared.plane_index_count + 1,
                   plane_id := env.plane_id }, [])
    exact ⟨rfl, h1, h2, rfl⟩

/-- What `drmkmsPlaneSetLevel` does to the index and the level. -/
theorem drmkmsPlaneSetLevel_level (errno2result : Int → DFBResult) (drmkms : DRMKMSData)
    (data : DRMKMSLayerData) (level err errno : Int) :
    (drmkmsPlaneSetLevel errno2result drmkms data level err errno).data.plane_index
      = data.plane_index ∧
    ((drmkmsPlaneSetLevel errno2result drmkms data level err errno).data.level = data.level ∨
     ((drmkmsPlaneSetLevel errno2result drmkms data level err errno).data.level = level ∧
       1 ≤ level ∧ level ≤ drmkms.shared.plane_index_count)) := by
  unfold drmkmsPlaneSetLevel
  split_ifs with h1 h2 h3
  · exact ⟨rfl, Or.inl rfl⟩
  · exact ⟨rfl, Or.inl rfl⟩
  · exact ⟨rfl, Or.inl rfl⟩
  · exact ⟨rfl, Or.inr ⟨rfl, by omega, by omega⟩⟩

/-- Every step keeps the plane layers ordered. -/
theorem planeStep_ordered (errno2result : Int → DFBResult) (s : PlaneSystem) (st : PlaneStep)
    (h : s.ordered) : (planeStep errno2result s st).ordered := by
  obtain ⟨hc, hl⟩ := h
  cases st with
  | init data env =>
    obtain ⟨i1, i2, i3, -⟩ := drmkmsPlaneInitLayer_index s.drmkms data env
    refine ⟨?_, ?_⟩
    · simp only [planeStep, i1, hc, List.length_append, List.length_singleton]
      push_cast
      rfl
    · intro k d hk
      simp only [planeStep] at hk ⊢
      rw [i1]
      by_cases hlt : k < s.planes.length
      · rw [List.getElem?_append_left hlt] at hk
        obtain ⟨a, b, c⟩ := hl k d hk
        exact ⟨a, b, by omega⟩
      · rw [List.getElem?_append_right (by omega)] at hk
        have hk0 : k - s.planes.length = 0 := by
          by_contra hne
          have : 1 ≤ k - s.planes.length := by omega
          rw [List.getElem?_eq_none (by simpa using this)] at hk
          exact absurd hk (by simp)
        rw [hk0] at hk
        simp only [List.getElem?_cons_zero, Option.some.injEq] at hk
        subst hk
        rw [i2, i3, hc]
        have : k = s.planes.length := by omega
        subst this
        exact ⟨rfl, by omega, le_refl _⟩
  | setLevel i level err errno =>
    simp only [planeStep]
    cases hi : s.planes[i]? with
    | none => exact ⟨hc, hl⟩
    | some di =>
      obtain ⟨s1, s2⟩ := drmkmsPlaneSetLevel_level errno2result s.drmkms di level err errno
      refine ⟨by simpa using hc, ?_⟩
      intro k d hk
      simp only [List.getElem?_set] at hk
      by_cases hik : i = k
      · subst hik
        obtain ⟨a, b, c⟩ := hl i di hi
        rw [if_pos rfl] at hk
        split_ifs at hk with hlen
        simp only [Option.some.injEq] at hk
        subst hk
        rw [s1]
        refine ⟨a, ?_⟩
        rcases s2 with h | ⟨h, h1, h2⟩
        · rw [h]; exact ⟨b, c⟩
        · rw [h]; exact ⟨h1, h2⟩
      · rw [if_neg hik] at hk
        exact hl k d hk

/-- Every sequence of steps keeps the plane layers ordered. -/
theorem planeRun_ordered (errno2result : Int → DFBResult) (steps : List PlaneStep) :
    ∀ s : PlaneSystem, s.ordered → (planeRun errno2result steps s).ordered := by
  induction steps with
  | nil => intro s h; exact h
  | cons st steps ih =>
    intro s h
    exact ih _ (planeStep_ordered errno2result s st h)

/-- C14. Range of the levels.  From a device whose `plane_index_count` is 0 and
no plane layer, after any sequence of plane initialisations
(`drmkmsPlaneInitLayer`) and `drmkmsPlaneSetLevel` calls, of any outcome: the
counter is the number of plane layers initialised; the plane initialised as
number `k + 1` (position `k` in the order of initialisation) has `plane_index`
`k + 1` and a recorded level between 1 and `plane_index_count`; and a plane
initialised next gets the next number as its `plane_index` and as its initial
level, `drmkmsPlaneInitLayer` returning `DFB_OK`. -/
theorem level_range_invariant (errno2result : Int → DFBResult) (drmkms : DRMKMSData)
    (steps : List PlaneStep) (k : Nat) (d data : DRMKMSLayerData) (env : InitEnv)
    (h0 : drmkms.shared.plane_index_count = 0) :
    (planeRun errno2result steps ⟨drmkms, []⟩).drmkms.shared.plane_index_count
      = ((planeRun errno2result steps ⟨drmkms, []⟩).planes.length : Int) ∧
    ((planeRun errno2result steps ⟨drmkms, []⟩).planes[k]? = some d →
      d.plane_index = (k : Int) + 1 ∧ 1 ≤ d.level ∧
      d.level ≤ (planeRun errno2result steps ⟨drmkms, []⟩).drmkms.shared.plane_index_count) ∧
    (planeStep errno2result (planeRun errno2result steps ⟨drmkms, []⟩)
        (PlaneStep.init data env)).planes[(planeRun errno2result steps ⟨drmkms, []⟩).planes.length]?
      = some (drmkmsPlaneInitLayer (planeRun errno2result steps ⟨drmkms, []⟩).drmkms data env).2.data ∧
    (drmkmsPlaneInitLayer (planeRun errno2result steps ⟨drmkms, []⟩).drmkms data env).2.data.plane_index
      = ((planeRun errno2result steps ⟨drmkms, []⟩).planes.length : Int) + 1 ∧
    (drmkmsPlaneInitLayer (planeRun errno2result steps ⟨drmkms, []⟩).drmkms data env).2.data.level
      = ((planeRun errno2result steps ⟨drmkms, []⟩).planes.length : Int) + 1 ∧
    (drmkmsPlaneInitLayer (planeRun errno2result steps ⟨drmkms, []⟩).drmkms data env).2.ret
      = DFBResult.DFB_OK := by
  have hstart : PlaneSystem.ordered ⟨drmkms, []⟩ := ⟨by simpa using h0, by simp⟩
  obtain ⟨hc, hl⟩ := planeRun_ordered errno2result steps _ hstart
  obtain ⟨-, i2, i3, i4⟩ :=
    drmkmsPlaneInitLayer_index (planeRun errno2result steps ⟨drmkms, []⟩).drmkms data env
  refine ⟨hc, hl k d, ?_, ?_, ?_, i4⟩
  · simp [planeStep]
  · rw [i2, hc]
  · rw [i3, hc]

/-- C14 at concrete inputs: three planes are initialised on a fresh device,
the first is raised to level 3, the second is refused level 4 and the third is
lowered to level 1.  The counter is 3, the second plane has `plane_index` 2 and
level 2, and a fourth plane would get `plane_index` 4 and level 4. -/
theorem level_range_invariant_witness :
    (planeRun sampleErrno2result levelSteps ⟨freshDevice, []⟩).planes[1]?
      = some { zeroLayer with plane_index := 2, level := 2, plane_id := 32, zpos_propid := 7,
                              alpha_propid := 9 } ∧
    (planeRun sampleErrno2result levelSteps ⟨freshDevice, []⟩).drmkms.shared.plane_index_count
      = ((planeRun sampleErrno2result levelSteps ⟨freshDevice, []⟩).planes.length : Int) ∧
    ((2 : Int) = ((1 : Nat) : Int) + 1 ∧ (1 : Int) ≤ 2 ∧
      (2 : Int) ≤ (planeRun sampleErrno2result levelSteps
        ⟨freshDevice, []⟩).drmkms.shared.plane_index_count) ∧
    (drmkmsPlaneInitLayer (planeRun sampleErrno2result levelSteps ⟨freshDevice, []⟩).drmkms
        zeroLayer (zposInitEnv 34)).2.data.level
      = ((planeRun sampleErrno2result levelSteps ⟨freshDevice, []⟩).planes.length : Int) + 1 :=
  ⟨by decide,
   (level_range_invariant sampleErrno2result freshDevice levelSteps 1
      { zeroLayer with plane_index := 2, level := 2, plane_id := 32, zpos_propid := 7,
                       alpha_propid := 9 } zeroLayer (zposInitEnv 34) rfl).1,
   (level_range_invariant sampleErrno2result freshDevice levelSteps 1
      { zeroLayer with plane_index := 2, level := 2, plane_id := 32, zpos_propid := 7,
                       alpha_propid := 9 } zeroLayer (zposInitEnv 34) rfl).2.1 (by decide),
   (level_range_invariant sampleErrno2result freshDevice levelSteps 1
      { zeroLayer with plane_index := 2, level := 2, plane_id := 32, zpos_propid := 7,
                       alpha_propid := 9 } zeroLayer (zposInitEnv 34) rfl).2.2.2.2.1⟩

/-! ## The length of the waits -/

/-- The mirror loop does not wait. -/
theorem waitMicros_mirrorFlips (drmkms : DRMKMSData) (left_lock : CoreSurfaceBufferLock)
    (mirror_err : Nat → Int) : waitMicros (mirrorFlips drmkms left_lock mirror_err) = [] := by
  unfold waitMicros mirrorFlips
  rw [List.filterMap_map, List.filterMap_eq_nil_iff]
  intro i _
  rfl

/-- When no event arrives and every wait runs to its timeout, the wait loop
returns after one wait if a flip is pending, and at once if not. -/
theorem waitPendingFlip_timeouts (ws : List WaitOutcome) (data : DRMKMSLayerData)
    (hne : data.flip_pending = true → ws ≠ [])
    (h : ∀ w ∈ ws, w.event = false ∧ w.timed_out = true) :
    waitPendingFlip ws data
      = some (data, if data.flip_pending then
                      [Effect.direct_waitqueue_wait_timeout fliptimeout] else []) := by
  cases hp : data.flip_pending
  · rw [waitPendingFlip_idle ws data hp]
    simp
  · cases ws with
    | nil => exact absurd rfl (hne hp)
    | cons w ws =>
      obtain ⟨he, ht⟩ := h w (List.mem_cons_self _ _)
      simp [waitPendingFlip, hp, ht, he, direct_waitqueue_wait_timeout]

/-- C12, counterexample.  A flip is pending and no event arrives.  The primary
submit and the plane submit with `DSFLIP_WAITFORSYNC` both return `DFB_OK`
after two timed waits of `fliptimeout` = 200000 microseconds each, one for the
previous flip and one for their own: 400000 microseconds in total, which is
more than `fliptimeout`. -/
theorem two_timeouts_in_one_submit :
    (∀ w ∈ timeoutEnv.prev_waits ++ timeoutEnv.sync_waits, w.event = false) ∧
    fliptimeout = 200000 ∧
    (drmkmsPrimaryUpdateFlipRegion sampleErrno2result sampleDevice pendingLayer 6
        DSFLIP_WAITFORSYNC sampleLock true timeoutEnv).map
      (fun out => (out.ret, waitMicros out.effects, totalWait out.effects))
      = some (DFBResult.DFB_OK, [200000, 200000], 400000) ∧
    (drmkmsPlaneUpdateFlipRegion sampleErrno2result sampleDevice pendingLayer 6
        DSFLIP_WAITFORSYNC sampleLock true timeoutEnv).map
      (fun out => (out.ret, waitMicros out.effects, totalWait out.effects))
      = some (DFBResult.DFB_OK, [200000, 200000], 400000) ∧
    ¬ ((400000 : Int) ≤ fliptimeout) := by
  decide

/-- C12, amended.  No completion event arrives, so that every timed wait runs
to its timeout, and the flags have `DSFLIP_WAITFORSYNC`.  From every state of
the layer (idle or with a flip pending) and whatever the hardware call
returns, the primary submit and the plane submit return; each performs at most
two timed waits, every one of them with the timeout `fliptimeout` = 1000000 / 5
= 200000 microseconds: one for the previous flip if one is pending, and one for
its own flip if the submit gets that far.  The total of the timeouts is at most
`2 * fliptimeout` = 400000 microseconds, and at most `fliptimeout` when the
layer is idle at the call. -/
theorem submit_waits_bounded (errno2result : Int → DFBResult) (drmkms : DRMKMSData)
    (data : DRMKMSLayerData) (surface flags : Nat) (left_lock : CoreSurfaceBufferLock)
    (flip : Bool) (env : SubmitEnv)
    (hflags : flags &&& DSFLIP_WAITFORSYNC = DSFLIP_WAITFORSYNC)
    (hprev : env.prev_waits ≠ []) (hsync : env.sync_waits ≠ [])
    (hno : ∀ w ∈ env.prev_waits ++ env.sync_waits, w.event = false ∧ w.timed_out = true) :
    fliptimeout = 200000 ∧
    (∃ out, drmkmsPrimaryUpdateFlipRegion errno2result drmkms data surface flags left_lock
          flip env = some out ∧
        waitMicros out.effects
          = (if data.flip_pending then [fliptimeout] else []) ++
            (if env.err = 0 then [fliptimeout] else []) ∧
        (waitMicros out.effects).length ≤ 2 ∧
        totalWait out.effects ≤ 2 * fliptimeout ∧
        (data.flip_pending = false → totalWait out.effects ≤ fliptimeout)) ∧
    (∃ out, drmkmsPlaneUpdateFlipRegion errno2result drmkms data surface flags left_lock
          flip env = some out ∧
        waitMicros out.effects
          = (if data.config.source.w = 0 ∨ data.config.source.h = 0 ∨
                data.config.dest.w = 0 ∨ data.config.dest.h = 0 then []
             else (if data.flip_pending then [fliptimeout] else []) ++
               (if data.muted = true ∨ env.err = 0 then [fliptimeout] else [])) ∧
        (waitMicros out.effects).length ≤ 2 ∧
        totalWait out.effects ≤ 2 * fliptimeout ∧
        (data.flip_pending = false → totalWait out.effects ≤ fliptimeout)) := by
  have h1 := waitPendingFlip_timeouts env.prev_waits data (fun _ => hprev)
    (fun w hw => hno w (List.mem_append_left _ hw))
  have h2 : ∀ d : DRMKMSLayerData, d.flip_pending = true →
      waitPendingFlip env.sync_waits d
        = some (d, [Effect.direct_waitqueue_wait_timeout fliptimeout]) := by
    intro d hd
    rw [waitPendingFlip_timeouts env.sync_waits d (fun _ => hsync)
      (fun w hw => hno w (List.mem_append_right _ hw)), hd]
    rfl
  have hft : fliptimeout = 200000 := by decide
  have hmf : List.filterMap Effect.waitOf (mirrorFlips drmkms left_lock env.mirror_err) = [] :=
    waitMicros_mirrorFlips drmkms left_lock env.mirror_err
  refine ⟨hft, ?_, ?_⟩
  · unfold drmkmsPrimaryUpdateFlipRegion
    rw [h1]
    dsimp only
    rw [h2 _ rfl]
    by_cases herr : env.err = 0 <;> cases hp : data.flip_pending <;> cases flip <;>
      cases hmo : drmkms.shared.mirror_outputs <;>
      simp [herr, hflags, hp, totalWait, hft, waitMicros, Effect.waitOf, hmf]
  · unfold drmkmsPlaneUpdateFlipRegion
    by_cases hgeo : data.config.source.w = 0 ∨ data.config.source.h = 0 ∨
        data.config.dest.w = 0 ∨ data.config.dest.h = 0
    · rw [if_pos hgeo, if_pos hgeo]
      exact ⟨_, rfl, by simp [waitMicros], by simp [waitMicros],
        by simp [totalWait, waitMicros, hft], by simp [totalWait, waitMicros, hft]⟩
    · rw [if_neg hgeo, if_neg hgeo, h1]
      dsimp only
      rw [h2 _ rfl]
      by_cases herr : env.err = 0 <;> cases hp : data.flip_pending <;>
        cases hm : data.muted <;> cases flip <;>
        simp [herr, hflags, hp, hm, totalWait, hft, waitMicros, Effect.waitOf]

/-- C12, amended, at concrete inputs: with a flip pending and no event, the
primary submit performs two waits of 200000 microseconds, 400000 in total; from
the idle layer it performs one. -/
theorem submit_waits_bounded_witness :
    (drmkmsPrimaryUpdateFlipRegion sampleErrno2result sampleDevice pendingLayer 6
        DSFLIP_WAITFORSYNC sampleLock true timeoutEnv).map (fun out => waitMicros out.effects)
      = some [200000, 200000] ∧
    (drmkmsPlaneUpdateFlipRegion sampleErrno2result sampleDevice idleLayer 6
        DSFLIP_WAITFORSYNC sampleLock true timeoutEnv).map (fun out => waitMicros out.effects)
      = some [200000] := by
  have h := submit_waits_bounded sampleErrno2result sampleDevice pendingLayer 6
    DSFLIP_WAITFORSYNC sampleLock true timeoutEnv (by decide) (by decide) (by decide) (by decide)
  have h' := submit_waits_bounded sampleErrno2result sampleDevice idleLayer 6
    DSFLIP_WAITFORSYNC sampleLock true timeoutEnv (by decide) (by decide) (by decide) (by decide)
  obtain ⟨hft, ⟨o1, r1, w1, -⟩, -⟩ := h
  obtain ⟨-, -, ⟨o2, r2, w2, -⟩⟩ := h'
  rw [r1, r2, Option.map_some', Option.map_some', w1, w2, hft]
  decide

/-! ## Muting a plane -/

/-- A wait loop issues no `drmModeSetPlane`. -/
theorem WaitRel.setPlane_eq {data d : DRMKMSLayerData} {e : List Effect}
    (h : WaitRel data d e) : e.filter Effect.isSetPlane = [] := by
  rcases h with ⟨-, k, rfl⟩ | ⟨-, -, k, rfl⟩
  · rw [List.filter_eq_nil_iff]
    intro x hx
    rw [List.eq_of_mem_replicate hx]
    simp [Effect.isSetPlane]
  · rw [List.filter_eq_nil_iff]
    intro x hx
    rw [List.mem_append] at hx
    rcases hx with hx | hx
    · rw [List.eq_of_mem_replicate hx]
      simp [Effect.isSetPlane]
    · simp only [List.mem_cons, List.mem_singleton, List.not_mem_nil, or_false] at hx
      rcases hx with rfl | rfl | rfl <;> simp [Effect.isSetPlane]

/-- A wait loop does not change `muted`. -/
theorem WaitRel.muted_eq {data d : DRMKMSLayerData} {e : List Effect}
    (h : WaitRel data d e) : d.muted = data.muted := by
  rcases h.data_eq with rfl | ⟨-, rfl⟩ <;> rfl

/-- C13, counterexample.  The opacity of a plane is updated to 0:
`drmkmsPlaneSetRegion` disables the plane with the null `drmModeSetPlane`,
returns `DFB_OK` and leaves the layer muted.  The frame submission that
follows returns `DFB_OK` without any `drmModeSetPlane`, and the layer is still
muted after it. -/
theorem muted_plane_not_enabled_by_submit :
    drmkmsPlaneSetRegion sampleErrno2result sampleDevice alphaLayer
        { sampleConfig with opacity := 0 } CLRCF_OPACITY sampleLock okRegionEnv
      = ⟨mutedLayer,
         [Effect.drmModeSetPlane 31 40 0 0 ⟨0, 0, 0, 0⟩ ⟨0, 0, 0, 0⟩ 0], DFBResult.DFB_OK⟩ ∧
    mutedLayer.muted = true ∧
    (drmkmsPlaneUpdateFlipRegion sampleErrno2result sampleDevice mutedLayer 6 0 sampleLock true
        okEnv).map (fun out => (out.ret, out.effects.filter Effect.isSetPlane, out.data.muted))
      = some (DFBResult.DFB_OK, [], true) := by
  decide

/-- C13, amended.  Muting and enabling a plane.  An update of the region whose
opacity changes to 0, no earlier call of the update failing, ends with the null
`drmModeSetPlane` (framebuffer 0, empty rectangles); when that call succeeds
`drmkmsPlaneSetRegion` returns `DFB_OK` with the layer muted, when it fails it
returns `DFB_FAILURE`.  A frame submission on a muted plane returns without
any `drmModeSetPlane` and leaves the layer muted.  The plane is enabled again
by an update of the region whose opacity changes to a value other than 0 while
the layer is muted: `drmkmsPlaneSetRegion` first issues `drmModeSetPlane` for
the buffer of the update with the geometry of the configuration; when that
call succeeds the layer is not muted on return, when it fails the translated
error is returned and the layer data are unchanged. -/
theorem overlay_mute_protocol (errno2result : Int → DFBResult) (drmkms : DRMKMSData)
    (data : DRMKMSLayerData) (config : CoreLayerRegionConfig) (updated : Nat)
    (left_lock : CoreSurfaceBufferLock) (env : RegionEnv)
    (surface flags : Nat) (flip : Bool) (senv : SubmitEnv) :
    (updated &&& CLRCF_OPACITY ≠ 0 → config.opacity = 0 →
      (updated &&& (CLRCF_WIDTH ||| CLRCF_HEIGHT ||| CLRCF_BUFFERMODE ||| CLRCF_DEST |||
        CLRCF_SOURCE) ≠ 0 → env.plane_err = 0) →
      (updated &&& (CLRCF_SRCKEY ||| CLRCF_OPTIONS) ≠ 0 → data.colorkey_propid ≠ 0 →
        env.colorkey_err = 0) →
      (drmkmsPlaneSetRegion errno2result drmkms data config updated left_lock env).effects.getLast?
        = some (Effect.drmModeSetPlane data.plane_id (drmkms.encoder_crtc_id 0) 0 0
            ⟨0, 0, 0, 0⟩ ⟨0, 0, 0, 0⟩ env.opacity_err) ∧
      (env.opacity_err = 0 →
        (drmkmsPlaneSetRegion errno2result drmkms data config updated left_lock env).ret
          = DFBResult.DFB_OK ∧
        (drmkmsPlaneSetRegion errno2result drmkms data config updated left_lock env).data.muted
          = true) ∧
      (env.opacity_err ≠ 0 →
        (drmkmsPlaneSetRegion errno2result drmkms data config updated left_lock env).ret
          = DFBResult.DFB_FAILURE)) ∧
    (data.muted = true →
      (data.flip_pending = true → resolves senv.prev_waits = true) →
      (flags &&& DSFLIP_WAITFORSYNC = DSFLIP_WAITFORSYNC → resolves senv.sync_waits = true) →
      ∃ out, drmkmsPlaneUpdateFlipRegion errno2result drmkms data surface flags left_lock flip
          senv = some out ∧
        out.effects.filter Effect.isSetPlane = [] ∧ out.data.muted = true) ∧
    (data.muted = true → updated &&& CLRCF_OPACITY ≠ 0 → config.opacity ≠ 0 →
      (drmkmsPlaneSetRegion errno2result drmkms data config updated left_lock env).effects.head?
        = some (Effect.drmModeSetPlane data.plane_id (drmkms.encoder_crtc_id 0) left_lock.handle 0
            config.dest (fixed16 config.source) env.plane_err) ∧
      (env.plane_err = 0 →
        (drmkmsPlaneSetRegion errno2result drmkms data config updated left_lock env).data.muted
          = false) ∧
      (env.plane_err ≠ 0 →
        drmkmsPlaneSetRegion errno2result drmkms data config updated left_lock env
          = ⟨data, [Effect.drmModeSetPlane data.plane_id (drmkms.encoder_crtc_id 0)
                     left_lock.handle 0 config.dest (fixed16 config.source) env.plane_err],
             errno2result env.plane_errno⟩)) := by
  refine ⟨?_, ?_, ?_⟩
  · intro hu ho hpe hke
    by_cases hgf : updated &&& (CLRCF_WIDTH ||| CLRCF_HEIGHT ||| CLRCF_BUFFERMODE ||| CLRCF_DEST |||
        CLRCF_SOURCE) = 0 <;>
      by_cases hkf : updated &&& (CLRCF_SRCKEY ||| CLRCF_OPTIONS) = 0 <;>
      by_cases hcp : data.colorkey_propid = 0 <;>
      by_cases he : env.opacity_err = 0 <;>
      simp_all [drmkmsPlaneSetRegion]
  · intro hm hprev hsync
    by_cases hgeo : data.config.source.w = 0 ∨ data.config.source.h = 0 ∨
        data.config.dest.w = 0 ∨ data.config.dest.h = 0
    · refine ⟨⟨data, [], DFBResult.DFB_INVARG⟩, ?_, rfl, hm⟩
      unfold drmkmsPlaneUpdateFlipRegion
      rw [if_pos hgeo]
    · obtain ⟨d1, e1, d3, e5, h1, hrel, -, hres⟩ :=
        plane_success errno2result drmkms data surface flags left_lock flip senv hgeo
          (Or.inl hm) hprev hsync
      have hrel1 := waitPendingFlip_rel _ _ _ _ h1
      refine ⟨_, hres, ?_, ?_⟩
      · cases flip <;>
          simp [List.filter_append, hm, hrel1.setPlane_eq, hrel.setPlane_eq, Effect.isSetPlane]
      · show d3.muted = true
        rw [hrel.muted_eq]
        show d1.muted = true
        rw [hrel1.muted_eq, hm]
  · intro hm hu ho
    by_cases hpe : env.plane_err = 0 <;>
      by_cases hkf : updated &&& (CLRCF_SRCKEY ||| CLRCF_OPTIONS) = 0 <;>
      by_cases hcp : data.colorkey_propid = 0 <;>
      by_cases hke : env.colorkey_err = 0 <;>
      by_cases hap : data.alpha_propid = 0 <;>
      by_cases he : env.opacity_err = 0 <;>
      simp_all [drmkmsPlaneSetRegion]

/-- C13, amended, at concrete inputs.  The frame submission on the muted plane
returns `DFB_OK` with the layer still muted; then the opacity is updated to
128: `drmkmsPlaneSetRegion` first issues the `drmModeSetPlane` for buffer 77
with the 640x480 geometry, and the layer is no longer muted. -/
theorem overlay_mute_protocol_witness :
    (drmkmsPlaneUpdateFlipRegion sampleErrno2result sampleDevice mutedLayer 6 0 sampleLock true
        okEnv).map (fun out => (out.effects.filter Effect.isSetPlane, out.data.muted))
      = some ([], true) ∧
    (drmkmsPlaneSetRegion sampleErrno2result sampleDevice mutedLayer
        { sampleConfig with opacity := 128 } CLRCF_OPACITY sampleLock okRegionEnv).effects.head?
      = some (Effect.drmModeSetPlane 31 40 77 0 sampleConfig.dest (fixed16 sampleConfig.source) 0) ∧
    (drmkmsPlaneSetRegion sampleErrno2result sampleDevice mutedLayer
        { sampleConfig with opacity := 128 } CLRCF_OPACITY sampleLock okRegionEnv).data.muted
      = false := by
  have h := overlay_mute_protocol sampleErrno2result sampleDevice mutedLayer
    { sampleConfig with opacity := 128 } CLRCF_OPACITY sampleLock okRegionEnv 6 0 true okEnv
  obtain ⟨out, h1, h2, h3⟩ := h.2.1 rfl (by decide) (by decide)
  obtain ⟨h4, h5, -⟩ := h.2.2 rfl (by decide) (by decide)
  refine ⟨?_, h4, h5 rfl⟩
  rw [h1, Option.map_some', h2, h3]

end DRMKMS
